import Mathlib

/-!
# Video hardware of `appoooh` / `robowres` (src/mame/video/appoooh.cpp)

A shallow embedding of the palette decoders, the tile-info callbacks, the
write handlers, the sprite drawing routines and the frame compositors of
`appoooh_state`, followed by the properties proved about them.

Conventions of the embedding:
* a `uint8_t` is a `Fin 256`; C `int` locals hold values far below `2^31`,
  so they are `Nat` (never negative) or `Int` (sprite coordinates);
* RAM reached through a pointer (`m_fg_videoram`, `uint8_t *sprite`, ...) is a
  total map from offsets to bytes; the colour PROM is a byte list whose reads
  are bounds-checked (`Option`), since its required size is part of the
  contract of the palette decoders;
* drawing into the bitmap is recorded as the list of calls made to the
  external tile-cache and blit primitives.
-/

namespace Appoooh

/-! ## Bytes and colours -/

/-- An 8-bit unsigned machine byte. -/
abbrev uint8_t := Fin 256

/-- Modelled from the spec: the `BIT(x, n)` helper of emu.h is not in the
source tree; the spec reads it as "bit n" of the byte, valued 0 or 1. -/
def BIT (x n : Nat) : Nat := (x >>> n) &&& 1

/-- Modelled from the spec: the colour type `rgb_t` of the emulator core is
not in the source tree; the spec describes a palette entry as a triple
(R, G, B) with each channel in 0..255. -/
structure rgb_t where
  r : Nat
  g : Nat
  b : Nat
deriving DecidableEq, Repr

/-- Modelled from the spec: the constructor `rgb_t(r, g, b)` is not in the
source tree; its channels are 8-bit, so each argument is kept modulo 256. -/
def rgb_t.rgb (r g b : Nat) : rgb_t := ⟨r % 256, g % 256, b % 256⟩

/-- Modelled from the spec: the palette device is not in the source tree; it
is a table of `entries()` colours, entry `i` being replaced by
`set_pen_color(i, c)`. -/
structure palette_device where
  pens : List rgb_t
deriving DecidableEq, Repr

/-- Modelled from the spec: `palette.entries()`, the entry count of the
palette. -/
def palette_device.entries (p : palette_device) : Nat := p.pens.length

/-- Modelled from the spec: `palette.set_pen_color(i, c)` replaces entry `i`
(and nothing else) by the colour `c`. -/
def palette_device.set_pen_color (p : palette_device) (i : Nat) (c : rgb_t) : palette_device :=
  ⟨p.pens.set i c⟩

/-! ## Palette decoders -/

/-- Lines 35-53 (and 67-85): the colour built from the PROM byte at `pen`.
`none` when `pen` is outside the PROM. -/
def pen_color (color_prom : List uint8_t) (pen : Nat) : Option rgb_t :=
  match color_prom[pen]? with
  | none => none
  | some v =>
    -- red component
    let bit0 := BIT v.val 0
    let bit1 := BIT v.val 1
    let bit2 := BIT v.val 2
    let r := 0x21 * bit0 + 0x47 * bit1 + 0x97 * bit2
    -- green component
    let bit0 := BIT v.val 3
    let bit1 := BIT v.val 4
    let bit2 := BIT v.val 5
    let g := 0x21 * bit0 + 0x47 * bit1 + 0x97 * bit2
    -- blue component
    let bit0 := 0
    let bit1 := BIT v.val 6
    let bit2 := BIT v.val 7
    let b := 0x21 * bit0 + 0x47 * bit1 + 0x97 * bit2
    some (rgb_t.rgb r g b)

/-- Line 33: `pen = (color_prom[0x20 + i] & 0x0f) | ((i < 0x100) ? 0x00 : 0x10)`,
stored in a `uint8_t`. `none` when `0x20 + i` is outside the PROM. -/
def appoooh_pen (color_prom : List uint8_t) (i : Nat) : Option Nat :=
  match color_prom[0x20 + i]? with
  | none => none
  | some v => some (((v.val &&& 0x0f) ||| (if i < 0x100 then 0x00 else 0x10)) % 256)

/-- Line 65: `pen = color_prom[0x20 + i] & 0x0f`, stored in a `uint8_t`. -/
def robowres_pen (color_prom : List uint8_t) (i : Nat) : Option Nat :=
  match color_prom[0x20 + i]? with
  | none => none
  | some v => some ((v.val &&& 0x0f) % 256)

/-- The colour computed by one iteration of the loop of `appoooh_palette`
(lines 31-51) for entry `i`. -/
def appoooh_color (color_prom : List uint8_t) (i : Nat) : Option rgb_t :=
  match appoooh_pen color_prom i with
  | none => none
  | some pen => pen_color color_prom pen

/-- The colour computed by one iteration of the loop of `robowres_palette`
(lines 63-83) for entry `i`. -/
def robowres_color (color_prom : List uint8_t) (i : Nat) : Option rgb_t :=
  match robowres_pen color_prom i with
  | none => none
  | some pen => pen_color color_prom pen

/-- The loop `for (int i = 0; i < n; i++) palette.set_pen_color(i, color(i))`:
the palette after the iterations `i = 0 .. n-1`, or `none` if one of them read
outside the PROM. -/
def palette_loop (color : Nat → Option rgb_t) (palette : palette_device) :
    Nat → Option palette_device
  | 0 => some palette
  | n + 1 =>
    match palette_loop color palette n with
    | none => none
    | some p =>
      match color n with
      | none => none
      | some c => some (p.set_pen_color n c)

/-- The function `appoooh_state::appoooh_palette` (lines 25-55). -/
def appoooh_palette (color_prom : List uint8_t) (palette : palette_device) :
    Option palette_device :=
  palette_loop (appoooh_color color_prom) palette palette.entries

/-- The function `appoooh_state::robowres_palette` (lines 57-87). -/
def robowres_palette (color_prom : List uint8_t) (palette : palette_device) :
    Option palette_device :=
  palette_loop (robowres_color color_prom) palette palette.entries

/-- Lines 36-39 (and 68-71): the red component `r` computed from the PROM
byte `v`, before it is packed into the colour. -/
def red_component (v : Nat) : Nat :=
  let bit0 := BIT v 0
  let bit1 := BIT v 1
  let bit2 := BIT v 2
  0x21 * bit0 + 0x47 * bit1 + 0x97 * bit2

/-- Lines 42-45 (and 74-77): the green component `g` computed from the PROM
byte `v`, before it is packed into the colour. -/
def green_component (v : Nat) : Nat :=
  let bit0 := BIT v 3
  let bit1 := BIT v 4
  let bit2 := BIT v 5
  0x21 * bit0 + 0x47 * bit1 + 0x97 * bit2

/-- Lines 48-51 (and 80-83): the blue component `b` computed from the PROM
byte `v`, before it is packed into the colour. -/
def blue_component (v : Nat) : Nat :=
  let bit0 := 0
  let bit1 := BIT v 6
  let bit2 := BIT v 7
  0x21 * bit0 + 0x47 * bit1 + 0x97 * bit2

/-- The entry indices the palette loop passes to `set_pen_color`, in the
order of the calls: the loop of `palette_loop` with its writes recorded. -/
def palette_loop_writes (color : Nat → Option rgb_t) : Nat → Option (List Nat)
  | 0 => some []
  | n + 1 =>
    match palette_loop_writes color n with
    | none => none
    | some w =>
      match color n with
      | none => none
      | some _ => some (w ++ [n])

/-! ## Tile cache and machine state -/

/-- The two tile-info callbacks a tile cache can be created with. -/
inductive tile_callback
  /-- The delegate of `appoooh_state::get_fg_tile_info`. -/
  | fg
  /-- The delegate of `appoooh_state::get_bg_tile_info`. -/
  | bg
deriving DecidableEq, Repr

/-- The arguments of one `tileinfo.set(gfxnum, code, color, flags)` call. -/
structure tile_data where
  gfxnum : Nat
  code : Nat
  color : Nat
  flags : Nat
deriving DecidableEq, Repr

/-- Modelled from the spec: the flag constant `TILEMAP_FLIPX` of the external
tile-cache library is not in the source tree; the spec describes it as the
horizontal-flip flag of a tile, a single nonzero flag bit. -/
def TILEMAP_FLIPX : Nat := 1

/-- Modelled from the spec: the tile-cache class `tilemap_t` is not in the
source tree. Following the spec it is a grid of cached cell records with a
parallel stale-bit set, a per-cell callback, an optional transparent pen and
scroll settings. -/
structure tilemap_t where
  callback : tile_callback
  transparent_pen : Option Nat
  scrolldy : Nat
  scrolldy_flipped : Nat
  scrollx : Nat
  stale : Nat → Bool
  cache : Nat → tile_data

/-- Modelled from the spec: `tilemap().create(...)` is not in the source tree;
a new tile cache has every cell stale, no transparent pen and no scroll. -/
def tilemap_t.create (cb : tile_callback) : tilemap_t :=
  { callback := cb, transparent_pen := none, scrolldy := 0, scrolldy_flipped := 0,
    scrollx := 0, stale := fun _ => true, cache := fun _ => ⟨0, 0, 0, 0⟩ }

/-- Modelled from the spec: `set_transparent_pen(pen)` of the tile cache. -/
def tilemap_t.set_transparent_pen (t : tilemap_t) (pen : Nat) : tilemap_t :=
  { t with transparent_pen := some pen }

/-- Modelled from the spec: `set_scrolldy(dy, dy_flipped)` of the tile cache,
the fixed vertical draw offset. -/
def tilemap_t.set_scrolldy (t : tilemap_t) (dy dy_flipped : Nat) : tilemap_t :=
  { t with scrolldy := dy, scrolldy_flipped := dy_flipped }

/-- Modelled from the spec: `mark_tile_dirty(index)` of the tile cache marks
exactly that cell stale. -/
def tilemap_t.mark_tile_dirty (t : tilemap_t) (index : Nat) : tilemap_t :=
  { t with stale := fun c => if c = index then true else t.stale c }

/-- Modelled from the spec: the cache refresh done by `draw` of the tile
cache: tile info is re-derived through the callback for the stale cells only,
and their stale bits are cleared. -/
def tilemap_t.refresh (t : tilemap_t) (info : Nat → tile_data) : tilemap_t :=
  { t with cache := fun c => if t.stale c then info c else t.cache c,
           stale := fun _ => false }

/-- The members of `appoooh_state` used by the video code. `flip_screen` and
`bank1` stand for the flip-screen global of the driver base class and the
selected entry of `membank("bank1")`. -/
structure appoooh_state where
  m_fg_videoram : Nat → uint8_t
  m_fg_colorram : Nat → uint8_t
  m_bg_videoram : Nat → uint8_t
  m_bg_colorram : Nat → uint8_t
  m_spriteram : Nat → uint8_t
  m_spriteram_2 : Nat → uint8_t
  m_scroll_x : Nat
  m_priority : Nat
  m_nmi_mask : Nat
  flip_screen : Bool
  bank1 : Nat
  m_fg_tilemap : tilemap_t
  m_bg_tilemap : tilemap_t

/-! ## Callbacks for the tile cache -/

/-- The callback `appoooh_state::get_fg_tile_info` (lines 97-106). -/
def get_fg_tile_info (s : appoooh_state) (tile_index : Nat) : tile_data :=
  let code := (s.m_fg_videoram tile_index).val + 256 * (((s.m_fg_colorram tile_index).val >>> 5) &&& 7)
  { gfxnum := 0,
    code := code,
    color := (s.m_fg_colorram tile_index).val &&& 0x0f,
    flags := if (s.m_fg_colorram tile_index).val &&& 0x10 ≠ 0 then TILEMAP_FLIPX else 0 }

/-- The callback `appoooh_state::get_bg_tile_info` (lines 108-117). -/
def get_bg_tile_info (s : appoooh_state) (tile_index : Nat) : tile_data :=
  let code := (s.m_bg_videoram tile_index).val + 256 * (((s.m_bg_colorram tile_index).val >>> 5) &&& 7)
  { gfxnum := 1,
    code := code,
    color := (s.m_bg_colorram tile_index).val &&& 0x0f,
    flags := if (s.m_bg_colorram tile_index).val &&& 0x10 ≠ 0 then TILEMAP_FLIPX else 0 }

/-- The delegate bound at creation: the callback a tile cache invokes. -/
def tile_callback.run : tile_callback → appoooh_state → Nat → tile_data
  | .fg => get_fg_tile_info
  | .bg => get_bg_tile_info

/-! ## Start-up and write handlers -/

/-- The function `appoooh_state::video_start` (lines 125-136). -/
def video_start (s : appoooh_state) : appoooh_state :=
  let fg := tilemap_t.create .fg
  let bg := tilemap_t.create .bg
  let fg := fg.set_transparent_pen 0
  let fg := fg.set_scrolldy 8 8
  let bg := bg.set_scrolldy 8 8
  { s with m_fg_tilemap := fg, m_bg_tilemap := bg }

/-- The handler `appoooh_state::scroll_w` (lines 138-141). -/
def scroll_w (s : appoooh_state) (data : uint8_t) : appoooh_state :=
  { s with m_scroll_x := data.val }

/-- The store `ram[offset] = data` into a byte memory. -/
def store (ram : Nat → uint8_t) (offset : Nat) (data : uint8_t) : Nat → uint8_t :=
  fun a => if a = offset then data else ram a

/-- The handler `appoooh_state::fg_videoram_w` (lines 144-148). -/
def fg_videoram_w (s : appoooh_state) (offset : Nat) (data : uint8_t) : appoooh_state :=
  { s with m_fg_videoram := store s.m_fg_videoram offset data,
           m_fg_tilemap := s.m_fg_tilemap.mark_tile_dirty offset }

/-- The handler `appoooh_state::fg_colorram_w` (lines 150-154). -/
def fg_colorram_w (s : appoooh_state) (offset : Nat) (data : uint8_t) : appoooh_state :=
  { s with m_fg_colorram := store s.m_fg_colorram offset data,
           m_fg_tilemap := s.m_fg_tilemap.mark_tile_dirty offset }

/-- The handler `appoooh_state::bg_videoram_w` (lines 156-160). -/
def bg_videoram_w (s : appoooh_state) (offset : Nat) (data : uint8_t) : appoooh_state :=
  { s with m_bg_videoram := store s.m_bg_videoram offset data,
           m_bg_tilemap := s.m_bg_tilemap.mark_tile_dirty offset }

/-- The handler `appoooh_state::bg_colorram_w` (lines 162-166). -/
def bg_colorram_w (s : appoooh_state) (offset : Nat) (data : uint8_t) : appoooh_state :=
  { s with m_bg_colorram := store s.m_bg_colorram offset data,
           m_bg_tilemap := s.m_bg_tilemap.mark_tile_dirty offset }

/-- Modelled from the spec: `flip_screen_set(state)` of the driver base class
is not in the source tree; the spec describes the flip-screen global as a
boolean, set when the argument is nonzero. -/
def flip_screen_set (s : appoooh_state) (state : Nat) : appoooh_state :=
  { s with flip_screen := decide (state ≠ 0) }

/-- The handler `appoooh_state::out_w` (lines 168-190). -/
def out_w (s : appoooh_state) (data : uint8_t) : appoooh_state :=
  -- bit 0 controls NMI
  let s := { s with m_nmi_mask := data.val &&& 1 }
  -- bit 1 flip screen
  let s := flip_screen_set s (data.val &&& 0x02)
  -- bits 4-5 are playfield/sprite priority
  let s := { s with m_priority := (data.val &&& 0x30) >>> 4 }
  -- bit 6 ROM bank select
  { s with bank1 := if data.val &&& 0x40 ≠ 0 then 1 else 0 }

/-! ## Sprites -/

/-- The arguments of one call
`gfx->transpen(dest_bmp, cliprect, code, color, flipx, flipy, sx, sy, trans_pen)`;
`gfx` is the index `n` of the graphics set `m_gfxdecode->gfx(n)`. -/
structure blit where
  gfx : Nat
  code : Nat
  color : Nat
  flipx : Nat
  flipy : Nat
  sx : Int
  sy : Int
  trans_pen : Nat
deriving DecidableEq, Repr

/-- The two sprite tables: `primary` is `m_spriteram` (sprite set #1),
`secondary` is `m_spriteram_2` (sprite set #2). -/
inductive sprite_bank
  | primary
  | secondary
deriving DecidableEq, Repr

/-- The sprite table a bank name stands for. -/
def appoooh_state.spriteram (s : appoooh_state) : sprite_bank → Nat → uint8_t
  | .primary => s.m_spriteram
  | .secondary => s.m_spriteram_2

/-- The loop `for (offs = 0x20 - 4; offs >= 0; offs -= 4) body(offs)` with `n`
iterations left, i.e. at `offs = 4 * (n - 1)`: the blits issued, in order. -/
def sprite_loop (body : Nat → blit) : Nat → List blit
  | 0 => []
  | n + 1 => body (4 * n) :: sprite_loop body n

/-- The body of the loop of `appoooh_draw_sprites` (lines 199-219) at offset
`offs`, with `flipy = flip_screen()`. -/
def appoooh_sprite (flipy : Nat) (gfx : Nat) (sprite : Nat → uint8_t) (offs : Nat) : blit :=
  let sy : Int := 240 - ((sprite (offs + 0)).val : Int)
  let code : Nat := ((sprite (offs + 1)).val >>> 2) + (((sprite (offs + 2)).val >>> 5) &&& 0x07) * 0x40
  let color : Nat := (sprite (offs + 2)).val &&& 0x0f
  let sx : Int := ((sprite (offs + 3)).val : Int)
  let flipx : Nat := (sprite (offs + 1)).val &&& 0x01
  let sx : Int := if sx ≥ 248 then sx - 256 else sx
  let sx : Int := if flipy ≠ 0 then 239 - sx else sx
  let sy : Int := if flipy ≠ 0 then 239 - sy else sy
  let flipx : Nat := if flipy ≠ 0 then (if flipx = 0 then 1 else 0) else flipx
  { gfx := gfx, code := code, color := color, flipx := flipx, flipy := flipy,
    sx := sx, sy := sy, trans_pen := 0 }

/-- The body of the loop of `robowres_draw_sprites` (lines 230-250) at offset
`offs`, with `flipy = flip_screen()`. -/
def robowres_sprite (flipy : Nat) (gfx : Nat) (sprite : Nat → uint8_t) (offs : Nat) : blit :=
  let sy : Int := 240 - ((sprite (offs + 0)).val : Int)
  let code : Nat := 0x200 + ((sprite (offs + 1)).val >>> 2) + (((sprite (offs + 2)).val >>> 5) &&& 0x07) * 0x40
  let color : Nat := (sprite (offs + 2)).val &&& 0x0f
  let sx : Int := ((sprite (offs + 3)).val : Int)
  let flipx : Nat := (sprite (offs + 1)).val &&& 0x01
  let sx : Int := if sx ≥ 248 then sx - 256 else sx
  let sx : Int := if flipy ≠ 0 then 239 - sx else sx
  let sy : Int := if flipy ≠ 0 then 239 - sy else sy
  let flipx : Nat := if flipy ≠ 0 then (if flipx = 0 then 1 else 0) else flipx
  { gfx := gfx, code := code, color := color, flipx := flipx, flipy := flipy,
    sx := sx, sy := sy, trans_pen := 0 }

/-- The read `int flipy = flip_screen()` (lines 195, 226): the boolean
flip-screen global converted to `int`. -/
def appoooh_state.flipy (s : appoooh_state) : Nat := if s.flip_screen then 1 else 0

/-- The function `appoooh_state::appoooh_draw_sprites` (lines 192-221): the
blits it issues, in order. -/
def appoooh_draw_sprites (s : appoooh_state) (gfx : Nat) (sprite : Nat → uint8_t) : List blit :=
  sprite_loop (appoooh_sprite s.flipy gfx sprite) 8

/-- The function `appoooh_state::robowres_draw_sprites` (lines 223-252): the
blits it issues, in order. -/
def robowres_draw_sprites (s : appoooh_state) (gfx : Nat) (sprite : Nat → uint8_t) : List blit :=
  sprite_loop (robowres_sprite s.flipy gfx sprite) 8

/-! ## Frame compositor -/

/-- The two tile layers: `bg` is the member `m_bg_tilemap`, `fg` is the
member `m_fg_tilemap`. -/
inductive tile_layer
  | bg
  | fg
deriving DecidableEq, Repr

/-- One call made by a frame render: a tile-cache draw
`tilemap->draw(screen, bitmap, cliprect, flags, priority)` on the member
`layer`, recorded with the tile cache as drawn, or a sprite routine run on one
bank, recorded with the blits it issued. -/
inductive draw_call
  | tilemap_draw (layer : tile_layer) (tmap : tilemap_t) (flags priority : Nat)
  | draw_sprites (bank : sprite_bank) (blits : List blit)

/-- A frame being rendered: the machine state and the calls made so far. -/
abbrev frame := appoooh_state × List draw_call

/-- The call `m_bg_tilemap->draw(screen, bitmap, cliprect, 0, 0)`. -/
def frame.bg_tilemap_draw (f : frame) : frame :=
  let t := f.1.m_bg_tilemap.refresh (f.1.m_bg_tilemap.callback.run f.1)
  ({ f.1 with m_bg_tilemap := t }, f.2 ++ [draw_call.tilemap_draw .bg t 0 0])

/-- The call `m_fg_tilemap->draw(screen, bitmap, cliprect, 0, 0)`. -/
def frame.fg_tilemap_draw (f : frame) : frame :=
  let t := f.1.m_fg_tilemap.refresh (f.1.m_fg_tilemap.callback.run f.1)
  ({ f.1 with m_fg_tilemap := t }, f.2 ++ [draw_call.tilemap_draw .fg t 0 0])

/-- The call `appoooh_draw_sprites(bitmap, cliprect, m_gfxdecode->gfx(gfx), bank)`. -/
def frame.appoooh_draw_sprites (f : frame) (gfx : Nat) (bank : sprite_bank) : frame :=
  (f.1, f.2 ++ [draw_call.draw_sprites bank (Appoooh.appoooh_draw_sprites f.1 gfx (f.1.spriteram bank))])

/-- The call `robowres_draw_sprites(bitmap, cliprect, m_gfxdecode->gfx(gfx), bank)`. -/
def frame.robowres_draw_sprites (f : frame) (gfx : Nat) (bank : sprite_bank) : frame :=
  (f.1, f.2 ++ [draw_call.draw_sprites bank (Appoooh.robowres_draw_sprites f.1 gfx (f.1.spriteram bank))])

/-- The function `appoooh_state::screen_update_appoooh` (lines 255-282): the
state after the frame and the calls made, in order. -/
def screen_update_appoooh (s : appoooh_state) : frame :=
  let f : frame := (s, [])
  let f := f.bg_tilemap_draw
  -- fg behind sprites
  let f := if f.1.m_priority = 0 then f.fg_tilemap_draw else f
  -- draw sprites
  let f :=
    if f.1.m_priority = 1 then
      -- sprite set #1, then sprite set #2
      (f.appoooh_draw_sprites 2 .primary).appoooh_draw_sprites 3 .secondary
    else
      -- sprite set #2, then sprite set #1
      (f.appoooh_draw_sprites 3 .secondary).appoooh_draw_sprites 2 .primary
  -- fg in front of sprites
  if f.1.m_priority ≠ 0 then f.fg_tilemap_draw else f

/-- The function `appoooh_state::screen_update_robowres` (lines 284-311): the
state after the frame and the calls made, in order. -/
def screen_update_robowres (s : appoooh_state) : frame :=
  let f : frame := (s, [])
  let f := f.bg_tilemap_draw
  -- fg behind sprites
  let f := if f.1.m_priority = 0 then f.fg_tilemap_draw else f
  -- draw sprites
  let f :=
    if f.1.m_priority = 1 then
      -- sprite set #1, then sprite set #2
      (f.robowres_draw_sprites 2 .primary).robowres_draw_sprites 3 .secondary
    else
      -- sprite set #2, then sprite set #1
      (f.robowres_draw_sprites 3 .secondary).robowres_draw_sprites 2 .primary
  -- fg in front of sprites
  if f.1.m_priority ≠ 0 then f.fg_tilemap_draw else f

/-! ## Reading a frame -/

/-- What a draw call puts on screen: a tile layer or a sprite bank. -/
inductive draw_kind
  | background
  | foreground
  | primary_bank
  | secondary_bank
deriving DecidableEq, Repr

/-- The layer or bank a recorded call draws. -/
def draw_call.kind : draw_call → draw_kind
  | .tilemap_draw .bg _ _ _ => .background
  | .tilemap_draw .fg _ _ _ => .foreground
  | .draw_sprites .primary _ => .primary_bank
  | .draw_sprites .secondary _ => .secondary_bank

/-- Modelled from the spec: the tile-cache draw and the blit primitive are not
in the source tree. At one fixed screen position a primitive either leaves
the destination pixel unchanged (transparent pen, or the position is not
covered) or replaces it by an opaque pixel; `pixel_source` gives, for each
primitive call, the opaque pixel it produces there, if any. -/
structure pixel_source where
  tilemap_pixel : tilemap_t → Option Nat
  blit_pixel : blit → Option Nat

/-- The destination pixel after the blits of a list, drawn in order. -/
def blits_over (src : pixel_source) (blits : List blit) (dst : Nat) : Nat :=
  blits.foldl (fun d b => (src.blit_pixel b).getD d) dst

/-- The destination pixel after one recorded call. -/
def draw_call.over (src : pixel_source) : draw_call → Nat → Nat
  | .tilemap_draw _ t _ _, dst => (src.tilemap_pixel t).getD dst
  | .draw_sprites _ blits, dst => blits_over src blits dst

/-- The pixel left at the position by the calls of a frame, drawn in order
over the initial content `dst` of the bitmap. -/
def render_pixel (src : pixel_source) (calls : List draw_call) (dst : Nat) : Nat :=
  calls.foldl (fun d c => c.over src d) dst

/-- The blits of a recorded call: those a sprite routine issued, none for a
tile-cache draw. -/
def draw_call.blits : draw_call → List blit
  | .tilemap_draw _ _ _ _ => []
  | .draw_sprites _ bl => bl

/-- Whether a recorded call is a sprite routine run on `bank`. -/
def draw_call.is_bank (bank : sprite_bank) : draw_call → Bool
  | .tilemap_draw _ _ _ _ => false
  | .draw_sprites b _ => decide (b = bank)

/-- Whether a recorded call is a sprite routine. -/
def draw_call.is_sprites : draw_call → Bool
  | .tilemap_draw _ _ _ _ => false
  | .draw_sprites _ _ => true

/-- The sprite-routine calls of a frame, in order. -/
def sprite_calls (calls : List draw_call) : List draw_call :=
  calls.filter draw_call.is_sprites

/-- All sprite blits of a frame, in drawing order. -/
def frame_blits (calls : List draw_call) : List blit :=
  calls.foldr (fun c acc => c.blits ++ acc) []

/-- The sprite blits a frame issued for one bank, in drawing order. -/
def bank_blits (calls : List draw_call) (bank : sprite_bank) : List blit :=
  frame_blits (calls.filter (draw_call.is_bank bank))

/-- The tile caches a frame drew for one layer, in drawing order. -/
def layer_draws (calls : List draw_call) (layer : tile_layer) : List tilemap_t :=
  calls.foldr (fun c acc =>
    match c with
    | .tilemap_draw l t _ _ => if l = layer then t :: acc else acc
    | .draw_sprites _ _ => acc) []

/-! ## Cache coherence -/

/-- The tile caches are bound to their own callbacks, as `video_start`
creates them. -/
def callbacks_bound (s : appoooh_state) : Prop :=
  s.m_fg_tilemap.callback = .fg ∧ s.m_bg_tilemap.callback = .bg

/-- Coherence of one tile cache with a tile-info derivation: the cached tile
info of every cell that is not stale is the derived one. -/
def tilemap_t.coherent (t : tilemap_t) (info : Nat → tile_data) : Prop :=
  ∀ c, t.stale c = false → t.cache c = info c

/-- Cache coherence of the machine: both tile caches are bound to their
callbacks and coherent with the tile info derived from the current graphic
and attribute memories of their layer. -/
def cache_coherent (s : appoooh_state) : Prop :=
  callbacks_bound s ∧
  s.m_fg_tilemap.coherent (get_fg_tile_info s) ∧
  s.m_bg_tilemap.coherent (get_bg_tile_info s)

/-- Modelled from the spec: the cells for which the next draw of a tile cache
re-derives tile info are the cells currently stale ("re-derivation touches
only bits currently set, then clears them"). -/
def tilemap_t.rederived (t : tilemap_t) (c : Nat) : Bool := t.stale c

/-! ## Concrete inputs used by the examples -/

/-- A machine just started by `video_start`, every memory and register zero. -/
def zero_state : appoooh_state :=
  video_start
    { m_fg_videoram := fun _ => 0, m_fg_colorram := fun _ => 0,
      m_bg_videoram := fun _ => 0, m_bg_colorram := fun _ => 0,
      m_spriteram := fun _ => 0, m_spriteram_2 := fun _ => 0,
      m_scroll_x := 0, m_priority := 0, m_nmi_mask := 0, flip_screen := false, bank1 := 0,
      m_fg_tilemap := tilemap_t.create .fg, m_bg_tilemap := tilemap_t.create .bg }

/-- A screen position where the background shows pixel 10, the foreground the
opaque pixel 20, every blit from graphics set 2 the opaque pixel 32 and every
other blit the opaque pixel 33. -/
def all_opaque : pixel_source :=
  { tilemap_pixel := fun t =>
      match t.callback with
      | .bg => some 10
      | .fg => some 20,
    blit_pixel := fun b => if b.gfx = 2 then some 32 else some 33 }

/-- A sprite table whose slot 0 holds the record (230, 0, 0, 10), a sprite at
x = 10, y = 10 without flip, every other byte zero. -/
def sprite_at_10_10 : Nat → uint8_t :=
  fun a => if a = 0 then 230 else if a = 3 then 10 else 0

/-- A sprite table whose slot 0 has x byte 248 and slot 1 has x byte 247,
every other byte zero. -/
def sprite_x_edge : Nat → uint8_t :=
  fun a => if a = 3 then 248 else if a = 7 then 247 else 0

/-- The just-started machine after one frame of `screen_update_appoooh`: both
tile caches have been drawn and are clean. -/
def drawn_state : appoooh_state := (screen_update_appoooh zero_state).1

/-! ## Properties -/

/-- The `BIT` helper returns the value of the tested bit. -/
theorem BIT_eq_testBit (x n : Nat) : BIT x n = (x.testBit n).toNat := by
  unfold BIT Nat.testBit
  rw [Nat.and_comm, Nat.one_and_eq_mod_two]
  rcases Nat.mod_two_eq_zero_or_one (x >>> n) with h | h <;> simp [h]

/-- A tested bit is 0 or 1. -/
theorem BIT_le_one (x n : Nat) : BIT x n ≤ 1 := by
  rw [BIT_eq_testBit]; cases x.testBit n <;> simp

/-- The colour decoded from an in-range PROM byte, channel by channel; the
weighted sums never exceed 255, so the 8-bit channels hold them exactly. -/
theorem pen_color_eq (color_prom : List uint8_t) (pen : Nat) (v : uint8_t)
    (h : color_prom[pen]? = some v) :
    pen_color color_prom pen = some
      ⟨0x21 * (v.val.testBit 0).toNat + 0x47 * (v.val.testBit 1).toNat + 0x97 * (v.val.testBit 2).toNat,
       0x21 * (v.val.testBit 3).toNat + 0x47 * (v.val.testBit 4).toNat + 0x97 * (v.val.testBit 5).toNat,
       0x47 * (v.val.testBit 6).toNat + 0x97 * (v.val.testBit 7).toNat⟩ := by
  unfold pen_color
  rw [h]
  simp only [rgb_t.rgb, ← BIT_eq_testBit]
  have h0 := BIT_le_one v.val 0
  have h1 := BIT_le_one v.val 1
  have h2 := BIT_le_one v.val 2
  have h3 := BIT_le_one v.val 3
  have h4 := BIT_le_one v.val 4
  have h5 := BIT_le_one v.val 5
  have h6 := BIT_le_one v.val 6
  have h7 := BIT_le_one v.val 7
  congr 2
  · omega
  · omega
  · omega

/-- The palette loop succeeds when every colour it needs is defined; it keeps
the entry count, sets each entry below `n` that exists, and leaves the
entries from `n` on untouched. -/
theorem palette_loop_spec (color : Nat → Option rgb_t) (palette : palette_device) (n : Nat)
    (h : ∀ i, i < n → ∃ c, color i = some c) :
    ∃ p, palette_loop color palette n = some p ∧
      p.pens.length = palette.pens.length ∧
      (∀ i, i < n → i < palette.pens.length → p.pens[i]? = color i) ∧
      (∀ i, n ≤ i → p.pens[i]? = palette.pens[i]?) := by
  induction n with
  | zero => exact ⟨palette, rfl, rfl, fun i hi => absurd hi (Nat.not_lt_zero i), fun i _ => rfl⟩
  | succ n ih =>
    obtain ⟨p, hp, hlen, hlo, hhi⟩ := ih (fun i hi => h i (Nat.lt_succ_of_lt hi))
    obtain ⟨c, hc⟩ := h n (Nat.lt_succ_self n)
    refine ⟨p.set_pen_color n c, ?_, ?_, ?_, ?_⟩
    · simp [palette_loop, hp, hc]
    · simp [palette_device.set_pen_color, hlen]
    · intro i hi hil
      simp only [palette_device.set_pen_color]
      by_cases hin : i = n
      · subst hin
        rw [hc]
        simp [List.getElem?_set, hlen, hil]
      · rw [List.getElem?_set_ne (Ne.symm hin)]
        exact hlo i (by omega) hil
    · intro i hi
      simp only [palette_device.set_pen_color]
      rw [List.getElem?_set_ne (by omega)]
      exact hhi i (by omega)

/-- The pen index of Variant A stays inside the 32-byte pen-lookup table. -/
theorem appoooh_pen_index_lt (v i : Nat) :
    ((v &&& 0x0f) ||| (if i < 0x100 then 0x00 else 0x10)) < 0x20 := by
  have h1 : v &&& 0x0f < 2 ^ 5 := lt_of_le_of_lt Nat.and_le_right (by norm_num)
  have h2 : (if i < 0x100 then 0x00 else 0x10) < 2 ^ 5 := by split <;> norm_num
  exact Nat.or_lt_two_pow h1 h2

/-- Under a PROM long enough, Variant A computes for entry `i` the colour of
the PROM byte at `(PROM[0x20+i] & 0x0F) | (i < 0x100 ? 0 : 0x10)`. -/
theorem appoooh_color_eq (color_prom : List uint8_t) (i : Nat)
    (h : 0x20 + i < color_prom.length) :
    ∃ sel b : uint8_t,
      color_prom[0x20 + i]? = some sel ∧
      color_prom[(sel.val &&& 0x0F) ||| (if 0x100 ≤ i then 0x10 else 0)]? = some b ∧
      appoooh_color color_prom i = pen_color color_prom
        ((sel.val &&& 0x0F) ||| (if 0x100 ≤ i then 0x10 else 0)) := by
  have hpen := appoooh_pen_index_lt (color_prom[0x20 + i]).val i
  have hif : (if i < 0x100 then 0x00 else 0x10) = (if 0x100 ≤ i then 0x10 else 0) := by
    split <;> split <;> omega
  rw [hif] at hpen
  have hin : ((color_prom[0x20 + i]).val &&& 0x0F) ||| (if 0x100 ≤ i then 0x10 else 0)
      < color_prom.length := by omega
  refine ⟨color_prom[0x20 + i], color_prom[((color_prom[0x20 + i]).val &&& 0x0F) |||
      (if 0x100 ≤ i then 0x10 else 0)], List.getElem?_eq_getElem h,
      List.getElem?_eq_getElem hin, ?_⟩
  simp only [appoooh_color, appoooh_pen, List.getElem?_eq_getElem h, hif]
  rw [Nat.mod_eq_of_lt (by omega)]

/-- Under a PROM long enough, Variant B computes for entry `i` the colour of
the PROM byte at `PROM[0x20+i] & 0x0F`. -/
theorem robowres_color_eq (color_prom : List uint8_t) (i : Nat)
    (h : 0x20 + i < color_prom.length) :
    ∃ sel b : uint8_t,
      color_prom[0x20 + i]? = some sel ∧
      color_prom[sel.val &&& 0x0F]? = some b ∧
      robowres_color color_prom i = pen_color color_prom (sel.val &&& 0x0F) := by
  have hpen : (color_prom[0x20 + i]).val &&& 0x0F ≤ 0x0F := Nat.and_le_right
  have hin : (color_prom[0x20 + i]).val &&& 0x0F < color_prom.length := by omega
  refine ⟨color_prom[0x20 + i], color_prom[(color_prom[0x20 + i]).val &&& 0x0F],
      List.getElem?_eq_getElem h, List.getElem?_eq_getElem hin, ?_⟩
  simp only [robowres_color, robowres_pen, List.getElem?_eq_getElem h]
  rw [Nat.mod_eq_of_lt (by omega)]

/-- C1: for a PROM holding the selection bytes of all entries, both palette
decoders return, and entry `i` of the result is the colour decoded from the
byte `b = PROM[p]`, with `p = (PROM[0x20+i] & 0x0F) | (0x10 if i >= 0x100 else 0)`
in `appoooh_palette` and `p = PROM[0x20+i] & 0x0F` in `robowres_palette`:
R = 0x21*bit0 + 0x47*bit1 + 0x97*bit2, G = 0x21*bit3 + 0x47*bit4 + 0x97*bit5,
B = 0x47*bit6 + 0x97*bit7. -/
theorem palette_entry_decoded (color_prom : List uint8_t) (palette : palette_device) (i : Nat)
    (hi : i < palette.entries) (hlen : 0x20 + palette.entries ≤ color_prom.length) :
    ∃ (sel bA bB : uint8_t) (palA palB : palette_device),
      color_prom[0x20 + i]? = some sel ∧
      color_prom[(sel.val &&& 0x0F) ||| (if 0x100 ≤ i then 0x10 else 0)]? = some bA ∧
      color_prom[sel.val &&& 0x0F]? = some bB ∧
      appoooh_palette color_prom palette = some palA ∧
      palA.pens[i]? = some
        ⟨0x21 * (bA.val.testBit 0).toNat + 0x47 * (bA.val.testBit 1).toNat
            + 0x97 * (bA.val.testBit 2).toNat,
         0x21 * (bA.val.testBit 3).toNat + 0x47 * (bA.val.testBit 4).toNat
            + 0x97 * (bA.val.testBit 5).toNat,
         0x47 * (bA.val.testBit 6).toNat + 0x97 * (bA.val.testBit 7).toNat⟩ ∧
      robowres_palette color_prom palette = some palB ∧
      palB.pens[i]? = some
        ⟨0x21 * (bB.val.testBit 0).toNat + 0x47 * (bB.val.testBit 1).toNat
            + 0x97 * (bB.val.testBit 2).toNat,
         0x21 * (bB.val.testBit 3).toNat + 0x47 * (bB.val.testBit 4).toNat
            + 0x97 * (bB.val.testBit 5).toNat,
         0x47 * (bB.val.testBit 6).toNat + 0x97 * (bB.val.testBit 7).toNat⟩ := by
  have hent : palette.entries = palette.pens.length := rfl
  obtain ⟨sel, bA, hsel, hbA, hcA⟩ := appoooh_color_eq color_prom i (by omega)
  obtain ⟨sel2, bB, hsel2, hbB, hcB⟩ := robowres_color_eq color_prom i (by omega)
  have hs : sel2 = sel := by
    rw [hsel] at hsel2; exact (Option.some.inj hsel2).symm
  subst hs
  have hdefA : ∀ j, j < palette.entries → ∃ c, appoooh_color color_prom j = some c := by
    intro j hj
    obtain ⟨s, b, _, hb, hc⟩ := appoooh_color_eq color_prom j (by omega)
    exact ⟨_, hc.trans (pen_color_eq _ _ b hb)⟩
  have hdefB : ∀ j, j < palette.entries → ∃ c, robowres_color color_prom j = some c := by
    intro j hj
    obtain ⟨s, b, _, hb, hc⟩ := robowres_color_eq color_prom j (by omega)
    exact ⟨_, hc.trans (pen_color_eq _ _ b hb)⟩
  obtain ⟨palA, hA, _, hAi, _⟩ := palette_loop_spec _ palette palette.entries hdefA
  obtain ⟨palB, hB, _, hBi, _⟩ := palette_loop_spec _ palette palette.entries hdefB
  refine ⟨sel2, bA, bB, palA, palB, hsel, hbA, hbB, hA, ?_, hB, ?_⟩
  · rw [hAi i hi (by omega), hcA, pen_color_eq _ _ bA hbA]
  · rw [hBi i hi (by omega), hcB, pen_color_eq _ _ bB hbB]

/-- C1 at a concrete input: a 34-byte PROM and a two-entry palette. -/
theorem palette_entry_decoded_witness :
    ∃ (sel bA bB : uint8_t) (palA palB : palette_device),
      (List.replicate 0x22 (0xAB : uint8_t))[0x20 + 1]? = some sel ∧
      (List.replicate 0x22 (0xAB : uint8_t))[(sel.val &&& 0x0F) |||
        (if 0x100 ≤ 1 then 0x10 else 0)]? = some bA ∧
      (List.replicate 0x22 (0xAB : uint8_t))[sel.val &&& 0x0F]? = some bB ∧
      appoooh_palette (List.replicate 0x22 (0xAB : uint8_t)) ⟨[⟨0, 0, 0⟩, ⟨0, 0, 0⟩]⟩ = some palA ∧
      palA.pens[1]? = some
        ⟨0x21 * (bA.val.testBit 0).toNat + 0x47 * (bA.val.testBit 1).toNat
            + 0x97 * (bA.val.testBit 2).toNat,
         0x21 * (bA.val.testBit 3).toNat + 0x47 * (bA.val.testBit 4).toNat
            + 0x97 * (bA.val.testBit 5).toNat,
         0x47 * (bA.val.testBit 6).toNat + 0x97 * (bA.val.testBit 7).toNat⟩ ∧
      robowres_palette (List.replicate 0x22 (0xAB : uint8_t)) ⟨[⟨0, 0, 0⟩, ⟨0, 0, 0⟩]⟩ = some palB ∧
      palB.pens[1]? = some
        ⟨0x21 * (bB.val.testBit 0).toNat + 0x47 * (bB.val.testBit 1).toNat
            + 0x97 * (bB.val.testBit 2).toNat,
         0x21 * (bB.val.testBit 3).toNat + 0x47 * (bB.val.testBit 4).toNat
            + 0x97 * (bB.val.testBit 5).toNat,
         0x47 * (bB.val.testBit 6).toNat + 0x97 * (bB.val.testBit 7).toNat⟩ :=
  palette_entry_decoded (List.replicate 0x22 (0xAB : uint8_t)) ⟨[⟨0, 0, 0⟩, ⟨0, 0, 0⟩]⟩ 1
    (by decide) (by decide)

/-- The calls of an `appoooh` frame, in order, whatever the priority code. -/
theorem screen_update_appoooh_calls (s : appoooh_state) :
    (screen_update_appoooh s).2 =
      [draw_call.tilemap_draw .bg (s.m_bg_tilemap.refresh (s.m_bg_tilemap.callback.run s)) 0 0]
      ++ (if s.m_priority = 0 then
            [draw_call.tilemap_draw .fg
              (s.m_fg_tilemap.refresh (s.m_fg_tilemap.callback.run
                { s with m_bg_tilemap := s.m_bg_tilemap.refresh (s.m_bg_tilemap.callback.run s) }))
              0 0]
          else [])
      ++ (if s.m_priority = 1 then
            [draw_call.draw_sprites .primary (appoooh_draw_sprites s 2 s.m_spriteram),
             draw_call.draw_sprites .secondary (appoooh_draw_sprites s 3 s.m_spriteram_2)]
          else
            [draw_call.draw_sprites .secondary (appoooh_draw_sprites s 3 s.m_spriteram_2),
             draw_call.draw_sprites .primary (appoooh_draw_sprites s 2 s.m_spriteram)])
      ++ (if s.m_priority ≠ 0 then
            [draw_call.tilemap_draw .fg
              (s.m_fg_tilemap.refresh (s.m_fg_tilemap.callback.run
                { s with m_bg_tilemap := s.m_bg_tilemap.refresh (s.m_bg_tilemap.callback.run s) }))
              0 0]
          else []) := by
  by_cases h0 : s.m_priority = 0
  · simp [screen_update_appoooh, frame.bg_tilemap_draw, frame.fg_tilemap_draw,
      frame.appoooh_draw_sprites, appoooh_draw_sprites, appoooh_state.flipy,
      appoooh_state.spriteram, h0]
  · by_cases h1 : s.m_priority = 1
    · simp [screen_update_appoooh, frame.bg_tilemap_draw, frame.fg_tilemap_draw,
        frame.appoooh_draw_sprites, appoooh_draw_sprites, appoooh_state.flipy,
        appoooh_state.spriteram, h1]
    · simp [screen_update_appoooh, frame.bg_tilemap_draw, frame.fg_tilemap_draw,
        frame.appoooh_draw_sprites, appoooh_draw_sprites, appoooh_state.flipy,
        appoooh_state.spriteram, h0, h1]

/-- The calls of a `robowres` frame, in order, whatever the priority code. -/
theorem screen_update_robowres_calls (s : appoooh_state) :
    (screen_update_robowres s).2 =
      [draw_call.tilemap_draw .bg (s.m_bg_tilemap.refresh (s.m_bg_tilemap.callback.run s)) 0 0]
      ++ (if s.m_priority = 0 then
            [draw_call.tilemap_draw .fg
              (s.m_fg_tilemap.refresh (s.m_fg_tilemap.callback.run
                { s with m_bg_tilemap := s.m_bg_tilemap.refresh (s.m_bg_tilemap.callback.run s) }))
              0 0]
          else [])
      ++ (if s.m_priority = 1 then
            [draw_call.draw_sprites .primary (robowres_draw_sprites s 2 s.m_spriteram),
             draw_call.draw_sprites .secondary (robowres_draw_sprites s 3 s.m_spriteram_2)]
          else
            [draw_call.draw_sprites .secondary (robowres_draw_sprites s 3 s.m_spriteram_2),
             draw_call.draw_sprites .primary (robowres_draw_sprites s 2 s.m_spriteram)])
      ++ (if s.m_priority ≠ 0 then
            [draw_call.tilemap_draw .fg
              (s.m_fg_tilemap.refresh (s.m_fg_tilemap.callback.run
                { s with m_bg_tilemap := s.m_bg_tilemap.refresh (s.m_bg_tilemap.callback.run s) }))
              0 0]
          else []) := by
  by_cases h0 : s.m_priority = 0
  · simp [screen_update_robowres, frame.bg_tilemap_draw, frame.fg_tilemap_draw,
      frame.robowres_draw_sprites, robowres_draw_sprites, appoooh_state.flipy,
      appoooh_state.spriteram, h0]
  · by_cases h1 : s.m_priority = 1
    · simp [screen_update_robowres, frame.bg_tilemap_draw, frame.fg_tilemap_draw,
        frame.robowres_draw_sprites, robowres_draw_sprites, appoooh_state.flipy,
        appoooh_state.spriteram, h1]
    · simp [screen_update_robowres, frame.bg_tilemap_draw, frame.fg_tilemap_draw,
        frame.robowres_draw_sprites, robowres_draw_sprites, appoooh_state.flipy,
        appoooh_state.spriteram, h0, h1]

/-- C2: the sequence of layer and sprite-bank draws of one frame, for
`screen_update_appoooh` and `screen_update_robowres` alike, is fixed by the
priority code alone: code 0 gives background, foreground, secondary bank,
primary bank; code 1 gives background, primary bank, secondary bank,
foreground; every other code (2 and 3 in particular) gives background,
secondary bank, primary bank, foreground. So the background is first, the
foreground is drawn exactly once, and the three orderings are pairwise
distinct. -/
theorem draw_order_by_priority (s : appoooh_state) :
    ((screen_update_appoooh s).2.map draw_call.kind =
        if s.m_priority = 0 then
          [.background, .foreground, .secondary_bank, .primary_bank]
        else if s.m_priority = 1 then
          [.background, .primary_bank, .secondary_bank, .foreground]
        else
          [.background, .secondary_bank, .primary_bank, .foreground]) ∧
    (screen_update_robowres s).2.map draw_call.kind =
      (screen_update_appoooh s).2.map draw_call.kind ∧
    ((screen_update_appoooh s).2.map draw_call.kind).head? = some .background ∧
    ((screen_update_appoooh s).2.map draw_call.kind).count .foreground = 1 ∧
    (screen_update_appoooh { s with m_priority := 2 }).2.map draw_call.kind =
      (screen_update_appoooh { s with m_priority := 3 }).2.map draw_call.kind ∧
    (screen_update_appoooh { s with m_priority := 0 }).2.map draw_call.kind ≠
      (screen_update_appoooh { s with m_priority := 1 }).2.map draw_call.kind ∧
    (screen_update_appoooh { s with m_priority := 0 }).2.map draw_call.kind ≠
      (screen_update_appoooh { s with m_priority := 2 }).2.map draw_call.kind ∧
    (screen_update_appoooh { s with m_priority := 1 }).2.map draw_call.kind ≠
      (screen_update_appoooh { s with m_priority := 2 }).2.map draw_call.kind := by
  have key : ∀ t : appoooh_state, (screen_update_appoooh t).2.map draw_call.kind =
        if t.m_priority = 0 then
          [.background, .foreground, .secondary_bank, .primary_bank]
        else if t.m_priority = 1 then
          [.background, .primary_bank, .secondary_bank, .foreground]
        else
          [.background, .secondary_bank, .primary_bank, .foreground] := by
    intro t
    rw [screen_update_appoooh_calls]
    by_cases h0 : t.m_priority = 0
    · simp [h0, draw_call.kind]
    · by_cases h1 : t.m_priority = 1
      · simp [h1, draw_call.kind]
      · simp [h0, h1, draw_call.kind]
  have keyR : (screen_update_robowres s).2.map draw_call.kind =
      (screen_update_appoooh s).2.map draw_call.kind := by
    rw [screen_update_robowres_calls, screen_update_appoooh_calls]
    by_cases h0 : s.m_priority = 0
    · simp [h0, draw_call.kind]
    · by_cases h1 : s.m_priority = 1
      · simp [h1, draw_call.kind]
      · simp [h0, h1, draw_call.kind]
  refine ⟨key s, keyR, ?_, ?_, ?_, ?_, ?_, ?_⟩
  · rw [key]; split_ifs <;> rfl
  · rw [key]; split_ifs <;> decide
  · rw [key, key]; rfl
  · rw [key, key]; simp
  · rw [key, key]; simp
  · rw [key, key]; simp

/-- Drawing a list of blits either leaves the destination untouched, no blit
being opaque there, or leaves the pixel of one of the opaque blits. -/
theorem blits_over_cases (src : pixel_source) (bl : List blit) (d : Nat) :
    (blits_over src bl d = d ∧ ∀ b, b ∈ bl → src.blit_pixel b = none) ∨
    (∃ b, b ∈ bl ∧ src.blit_pixel b = some (blits_over src bl d)) := by
  induction bl generalizing d with
  | nil => exact Or.inl ⟨rfl, fun b hb => absurd hb (List.not_mem_nil b)⟩
  | cons a bs ih =>
    have hstep : blits_over src (a :: bs) d = blits_over src bs ((src.blit_pixel a).getD d) := rfl
    rcases ih ((src.blit_pixel a).getD d) with ⟨heq, hnone⟩ | ⟨b, hb, hpix⟩
    · cases ha : src.blit_pixel a with
      | none =>
        left
        refine ⟨?_, ?_⟩
        · rw [hstep, heq, ha]; rfl
        · intro b hb
          rcases List.mem_cons.mp hb with rfl | hb
          · exact ha
          · exact hnone b hb
      | some v =>
        right
        refine ⟨a, List.mem_cons_self a bs, ?_⟩
        rw [hstep, heq, ha]; rfl
    · right
      exact ⟨b, List.mem_cons_of_mem a hb, by rw [hstep]; exact hpix⟩

/-- Where one blit of a list is opaque, the pixel left by the list does not
depend on what was there before. -/
theorem blits_over_opaque (src : pixel_source) (bl : List blit)
    (h : ∃ b, b ∈ bl ∧ (src.blit_pixel b).isSome = true) (d e : Nat) :
    blits_over src bl d = blits_over src bl e := by
  induction bl generalizing d e with
  | nil =>
    obtain ⟨b, hb, _⟩ := h
    exact absurd hb (List.not_mem_nil b)
  | cons a bs ih =>
    have hd : blits_over src (a :: bs) d = blits_over src bs ((src.blit_pixel a).getD d) := rfl
    have he : blits_over src (a :: bs) e = blits_over src bs ((src.blit_pixel a).getD e) := rfl
    rw [hd, he]
    cases ha : src.blit_pixel a with
    | some v => rfl
    | none =>
      obtain ⟨b, hb, hop⟩ := h
      rcases List.mem_cons.mp hb with rfl | hb
      · rw [ha] at hop; exact absurd hop (by simp)
      · exact ih ⟨b, hb, hop⟩ _ _

/-- Drawing two lists of blits one after the other is drawing their
concatenation. -/
theorem blits_over_append (src : pixel_source) (l1 l2 : List blit) (d : Nat) :
    blits_over src (l1 ++ l2) d = blits_over src l2 (blits_over src l1 d) := by
  simp [blits_over, List.foldl_append]

/-- With priority code 0 the frame leaves, at any position, the sprites drawn
over the foreground drawn over the background. -/
theorem render_pixel_priority_zero (s : appoooh_state) (src : pixel_source) (d : Nat)
    (h0 : s.m_priority = 0) :
    render_pixel src (screen_update_appoooh s).2 d =
      blits_over src (frame_blits (screen_update_appoooh s).2)
        ((src.tilemap_pixel (s.m_fg_tilemap.refresh (s.m_fg_tilemap.callback.run
            { s with m_bg_tilemap := s.m_bg_tilemap.refresh (s.m_bg_tilemap.callback.run s) }))).getD
          ((src.tilemap_pixel (s.m_bg_tilemap.refresh (s.m_bg_tilemap.callback.run s))).getD d)) := by
  rw [screen_update_appoooh_calls]
  simp [h0, render_pixel, draw_call.over, frame_blits, draw_call.blits, blits_over_append]

/-- C3 fails as stated: in the just-started machine (priority code 0), at a
position where the background shows 10, the foreground is opaque with pixel
20 and the sprites are opaque with pixels 32 and 33, the rendered pixel is the
sprite pixel 32, not the foreground pixel 20. -/
theorem foreground_hidden_at_priority_zero :
    zero_state.m_priority = 0 ∧
    (∀ t, t ∈ layer_draws (screen_update_appoooh zero_state).2 .fg →
      all_opaque.tilemap_pixel t = some 20) ∧
    (∀ t, t ∈ layer_draws (screen_update_appoooh zero_state).2 .bg →
      all_opaque.tilemap_pixel t = some 10) ∧
    (∃ b, b ∈ frame_blits (screen_update_appoooh zero_state).2 ∧
      all_opaque.blit_pixel b = some 32) ∧
    render_pixel all_opaque (screen_update_appoooh zero_state).2 0 = 32 ∧
    render_pixel all_opaque (screen_update_appoooh zero_state).2 0 ≠ 20 := by
  decide

/-- C3 as amended: with priority code 0, at any screen position where some
sprite blit of the frame is opaque, the final pixel of the frame is the pixel
of an opaque sprite blit, whatever the foreground and the background show
there: the sprites are drawn after the foreground and cover it. -/
theorem sprites_cover_foreground_at_priority_zero (s : appoooh_state) (src : pixel_source)
    (d : Nat) (h0 : s.m_priority = 0)
    (hop : ∃ b, b ∈ frame_blits (screen_update_appoooh s).2 ∧
      (src.blit_pixel b).isSome = true) :
    ∃ b, b ∈ frame_blits (screen_update_appoooh s).2 ∧
      src.blit_pixel b = some (render_pixel src (screen_update_appoooh s).2 d) := by
  rw [render_pixel_priority_zero s src d h0]
  rcases blits_over_cases src (frame_blits (screen_update_appoooh s).2)
      ((src.tilemap_pixel (s.m_fg_tilemap.refresh (s.m_fg_tilemap.callback.run
            { s with m_bg_tilemap := s.m_bg_tilemap.refresh (s.m_bg_tilemap.callback.run s) }))).getD
          ((src.tilemap_pixel (s.m_bg_tilemap.refresh (s.m_bg_tilemap.callback.run s))).getD d))
    with ⟨_, hnone⟩ | hsome
  · obtain ⟨b, hb, hb2⟩ := hop
    rw [hnone b hb] at hb2
    exact absurd hb2 (by simp)
  · exact hsome

/-- C3 as amended, at a concrete input: the just-started machine with every
layer and sprite opaque. -/
theorem sprites_cover_foreground_at_priority_zero_witness :
    ∃ b, b ∈ frame_blits (screen_update_appoooh zero_state).2 ∧
      all_opaque.blit_pixel b =
        some (render_pixel all_opaque (screen_update_appoooh zero_state).2 0) :=
  sprites_cover_foreground_at_priority_zero zero_state all_opaque 0 (by decide) (by decide)

/-- The sprite-routine calls of an `appoooh` frame. -/
theorem sprite_calls_appoooh (s : appoooh_state) :
    sprite_calls (screen_update_appoooh s).2 =
      if s.m_priority = 1 then
        [draw_call.draw_sprites .primary (appoooh_draw_sprites s 2 s.m_spriteram),
         draw_call.draw_sprites .secondary (appoooh_draw_sprites s 3 s.m_spriteram_2)]
      else
        [draw_call.draw_sprites .secondary (appoooh_draw_sprites s 3 s.m_spriteram_2),
         draw_call.draw_sprites .primary (appoooh_draw_sprites s 2 s.m_spriteram)] := by
  rw [screen_update_appoooh_calls]
  by_cases h0 : s.m_priority = 0
  · simp [h0, sprite_calls, draw_call.is_sprites]
  · by_cases h1 : s.m_priority = 1
    · simp [h1, sprite_calls, draw_call.is_sprites]
    · simp [h0, h1, sprite_calls, draw_call.is_sprites]

/-- The sprite-routine calls of a `robowres` frame. -/
theorem sprite_calls_robowres (s : appoooh_state) :
    sprite_calls (screen_update_robowres s).2 =
      if s.m_priority = 1 then
        [draw_call.draw_sprites .primary (robowres_draw_sprites s 2 s.m_spriteram),
         draw_call.draw_sprites .secondary (robowres_draw_sprites s 3 s.m_spriteram_2)]
      else
        [draw_call.draw_sprites .secondary (robowres_draw_sprites s 3 s.m_spriteram_2),
         draw_call.draw_sprites .primary (robowres_draw_sprites s 2 s.m_spriteram)] := by
  rw [screen_update_robowres_calls]
  by_cases h0 : s.m_priority = 0
  · simp [h0, sprite_calls, draw_call.is_sprites]
  · by_cases h1 : s.m_priority = 1
    · simp [h1, sprite_calls, draw_call.is_sprites]
    · simp [h0, h1, sprite_calls, draw_call.is_sprites]

/-- The blits an `appoooh` frame issues for each bank: the primary bank is
drawn by `appoooh_draw_sprites` from graphics set 2, the secondary bank from
graphics set 3. -/
theorem bank_blits_appoooh (s : appoooh_state) :
    bank_blits (screen_update_appoooh s).2 .primary = appoooh_draw_sprites s 2 s.m_spriteram ∧
    bank_blits (screen_update_appoooh s).2 .secondary
      = appoooh_draw_sprites s 3 s.m_spriteram_2 := by
  rw [screen_update_appoooh_calls]
  by_cases h0 : s.m_priority = 0
  · simp [h0, bank_blits, frame_blits, draw_call.is_bank, draw_call.blits]
  · by_cases h1 : s.m_priority = 1
    · simp [h1, bank_blits, frame_blits, draw_call.is_bank, draw_call.blits]
    · simp [h0, h1, bank_blits, frame_blits, draw_call.is_bank, draw_call.blits]

/-- The blits a `robowres` frame issues for each bank: the primary bank is
drawn by `robowres_draw_sprites` from graphics set 2, the secondary bank from
graphics set 3. -/
theorem bank_blits_robowres (s : appoooh_state) :
    bank_blits (screen_update_robowres s).2 .primary = robowres_draw_sprites s 2 s.m_spriteram ∧
    bank_blits (screen_update_robowres s).2 .secondary
      = robowres_draw_sprites s 3 s.m_spriteram_2 := by
  rw [screen_update_robowres_calls]
  by_cases h0 : s.m_priority = 0
  · simp [h0, bank_blits, frame_blits, draw_call.is_bank, draw_call.blits]
  · by_cases h1 : s.m_priority = 1
    · simp [h1, bank_blits, frame_blits, draw_call.is_bank, draw_call.blits]
    · simp [h0, h1, bank_blits, frame_blits, draw_call.is_bank, draw_call.blits]

/-- Two sprite routines run one after the other, the second with an opaque
blit at the position: the pixel left is the one the second leaves on its
own, and it is the pixel of one of its blits. -/
theorem later_bank_pixel (src : pixel_source) (x y : sprite_bank) (first later : List blit)
    (h : ∃ b, b ∈ later ∧ (src.blit_pixel b).isSome = true) (d : Nat) :
    (∀ e, render_pixel src [draw_call.draw_sprites x first, draw_call.draw_sprites y later] d
        = blits_over src later e) ∧
    ∃ b, b ∈ later ∧ src.blit_pixel b = some
      (render_pixel src [draw_call.draw_sprites x first, draw_call.draw_sprites y later] d) := by
  have hr : render_pixel src [draw_call.draw_sprites x first, draw_call.draw_sprites y later] d
      = blits_over src later (blits_over src first d) := rfl
  refine ⟨fun e => by rw [hr]; exact blits_over_opaque src later h _ _, ?_⟩
  rw [hr]
  rcases blits_over_cases src later (blits_over src first d) with ⟨_, hnone⟩ | hsome
  · obtain ⟨b, hb, hb2⟩ := h
    rw [hnone b hb] at hb2
    exact absurd hb2 (by simp)
  · exact hsome

/-- C4: in a frame of `screen_update_appoooh` or `screen_update_robowres`,
the sprite banks are drawn primary then secondary when the priority code is
1, and secondary then primary otherwise (codes 0, 2, 3). So at a screen
position where both banks have an opaque blit, the pixel left by the sprite
stage is the one of the bank drawn later, whatever the earlier bank and the
destination held: the secondary bank for code 1, the primary bank for codes
0, 2 and 3. -/
theorem later_bank_overwrites (s : appoooh_state) (src : pixel_source) (d : Nat)
    (calls : List draw_call)
    (hcalls : calls = (screen_update_appoooh s).2 ∨ calls = (screen_update_robowres s).2)
    (hp : ∃ b, b ∈ bank_blits calls .primary ∧ (src.blit_pixel b).isSome = true)
    (hs : ∃ b, b ∈ bank_blits calls .secondary ∧ (src.blit_pixel b).isSome = true) :
    ((sprite_calls calls).map draw_call.kind =
      if s.m_priority = 1 then [.primary_bank, .secondary_bank]
      else [.secondary_bank, .primary_bank]) ∧
    (∀ e, render_pixel src (sprite_calls calls) d =
      blits_over src (bank_blits calls (if s.m_priority = 1 then .secondary else .primary)) e) ∧
    ∃ b, b ∈ bank_blits calls (if s.m_priority = 1 then .secondary else .primary) ∧
      src.blit_pixel b = some (render_pixel src (sprite_calls calls) d) := by
  rcases hcalls with rfl | rfl
  · rw [(bank_blits_appoooh s).1] at hp
    rw [(bank_blits_appoooh s).2] at hs
    rw [sprite_calls_appoooh]
    by_cases h1 : s.m_priority = 1
    · simp only [h1, if_true, (bank_blits_appoooh s).2]
      exact ⟨rfl, later_bank_pixel src _ _ _ _ hs d⟩
    · simp only [h1, if_false, (bank_blits_appoooh s).1]
      exact ⟨rfl, later_bank_pixel src _ _ _ _ hp d⟩
  · rw [(bank_blits_robowres s).1] at hp
    rw [(bank_blits_robowres s).2] at hs
    rw [sprite_calls_robowres]
    by_cases h1 : s.m_priority = 1
    · simp only [h1, if_true, (bank_blits_robowres s).2]
      exact ⟨rfl, later_bank_pixel src _ _ _ _ hs d⟩
    · simp only [h1, if_false, (bank_blits_robowres s).1]
      exact ⟨rfl, later_bank_pixel src _ _ _ _ hp d⟩

/-- C4 at a concrete input: the just-started machine after `out_w(0x10)`
(priority code 1), every sprite opaque; the secondary bank (pixel 33) is
left on screen. -/
theorem later_bank_overwrites_witness :
    ((sprite_calls (screen_update_appoooh (out_w zero_state 0x10)).2).map draw_call.kind =
      if (out_w zero_state 0x10).m_priority = 1 then [.primary_bank, .secondary_bank]
      else [.secondary_bank, .primary_bank]) ∧
    (∀ e, render_pixel all_opaque (sprite_calls (screen_update_appoooh (out_w zero_state 0x10)).2) 0 =
      blits_over all_opaque (bank_blits (screen_update_appoooh (out_w zero_state 0x10)).2
        (if (out_w zero_state 0x10).m_priority = 1 then .secondary else .primary)) e) ∧
    ∃ b, b ∈ bank_blits (screen_update_appoooh (out_w zero_state 0x10)).2
        (if (out_w zero_state 0x10).m_priority = 1 then .secondary else .primary) ∧
      all_opaque.blit_pixel b = some
        (render_pixel all_opaque (sprite_calls (screen_update_appoooh (out_w zero_state 0x10)).2) 0) :=
  later_bank_overwrites (out_w zero_state 0x10) all_opaque 0 _ (Or.inl rfl)
    (by decide) (by decide)

/-- C5: with screen flip off, the blit `appoooh_draw_sprites` issues for the
record (b0, b1, b2, b3) of slot `k` has y = 240 - b0,
code = (b1 >> 2) + ((b2 >> 5) & 7) * 0x40, colour = b2 & 0x0F,
flip-x = b1 & 1, flip-y = 0, transparent pen 0, and x = b3 if b3 < 248, else
b3 - 256; in particular x byte 248 (slot 0 of `sprite_x_edge`) gives x = -8
and x byte 247 (slot 1 of `sprite_x_edge`) gives x = 247. -/
theorem appoooh_sprite_decode (s : appoooh_state) (gfx : Nat) (sprite : Nat → uint8_t)
    (k : Nat) (hk : k < 8) (hflip : s.flip_screen = false) :
    (appoooh_draw_sprites s gfx sprite)[7 - k]? = some
      { gfx := gfx,
        code := ((sprite (4 * k + 1)).val >>> 2) + (((sprite (4 * k + 2)).val >>> 5) &&& 7) * 0x40,
        color := (sprite (4 * k + 2)).val &&& 0x0F,
        flipx := (sprite (4 * k + 1)).val &&& 1,
        flipy := 0,
        sx := if (sprite (4 * k + 3)).val < 248 then ((sprite (4 * k + 3)).val : Int)
              else ((sprite (4 * k + 3)).val : Int) - 256,
        sy := 240 - ((sprite (4 * k)).val : Int),
        trans_pen := 0 } ∧
    ((appoooh_draw_sprites s gfx sprite_x_edge)[7 - 0]?).map blit.sx = some (-8) ∧
    ((appoooh_draw_sprites s gfx sprite_x_edge)[7 - 1]?).map blit.sx = some 247 := by
  have main : (appoooh_draw_sprites s gfx sprite)[7 - k]? = some
      { gfx := gfx,
        code := ((sprite (4 * k + 1)).val >>> 2) + (((sprite (4 * k + 2)).val >>> 5) &&& 7) * 0x40,
        color := (sprite (4 * k + 2)).val &&& 0x0F,
        flipx := (sprite (4 * k + 1)).val &&& 1,
        flipy := 0,
        sx := if (sprite (4 * k + 3)).val < 248 then ((sprite (4 * k + 3)).val : Int)
              else ((sprite (4 * k + 3)).val : Int) - 256,
        sy := 240 - ((sprite (4 * k)).val : Int),
        trans_pen := 0 } := by
    interval_cases k <;>
      simp [appoooh_draw_sprites, sprite_loop, appoooh_sprite, appoooh_state.flipy, hflip] <;>
      split_ifs <;> first | rfl | omega
  refine ⟨main, ?_, ?_⟩
  · simp [appoooh_draw_sprites, sprite_loop, appoooh_sprite, appoooh_state.flipy, hflip,
      sprite_x_edge]
    rfl
  · simp [appoooh_draw_sprites, sprite_loop, appoooh_sprite, appoooh_state.flipy, hflip,
      sprite_x_edge]
    rfl

/-- C5 at a concrete input: slot 0 of a table with x byte 248, flip off. -/
theorem appoooh_sprite_decode_witness :
    (appoooh_draw_sprites zero_state 2 sprite_x_edge)[7 - 0]? = some
      { gfx := 2,
        code := ((sprite_x_edge (4 * 0 + 1)).val >>> 2)
          + (((sprite_x_edge (4 * 0 + 2)).val >>> 5) &&& 7) * 0x40,
        color := (sprite_x_edge (4 * 0 + 2)).val &&& 0x0F,
        flipx := (sprite_x_edge (4 * 0 + 1)).val &&& 1,
        flipy := 0,
        sx := if (sprite_x_edge (4 * 0 + 3)).val < 248 then ((sprite_x_edge (4 * 0 + 3)).val : Int)
              else ((sprite_x_edge (4 * 0 + 3)).val : Int) - 256,
        sy := 240 - ((sprite_x_edge (4 * 0)).val : Int),
        trans_pen := 0 } ∧
    ((appoooh_draw_sprites zero_state 2 sprite_x_edge)[7 - 0]?).map blit.sx = some (-8) ∧
    ((appoooh_draw_sprites zero_state 2 sprite_x_edge)[7 - 1]?).map blit.sx = some 247 :=
  appoooh_sprite_decode zero_state 2 sprite_x_edge 0 (by decide) (by decide)

/-- Mapping over the blits of the sprite loop is mapping over its body. -/
theorem sprite_loop_map (g : blit → blit) (body : Nat → blit) (n : Nat) :
    (sprite_loop body n).map g = sprite_loop (fun offs => g (body offs)) n := by
  induction n with
  | zero => rfl
  | succ n ih => simp [sprite_loop, ih]

/-- C6: with the screen-flip flag set, both sprite routines issue, for every
sprite, the blit of the unflipped decode moved to (239 - x, 239 - y), with
flip-x inverted and flip-y set, code, colour, graphics set and transparent
pen unchanged; a sprite at (x=10, y=10, flipX=false) is blitted at
(229, 229, flipX=true). -/
theorem flip_screen_mirrors_sprites (s : appoooh_state) (gfx : Nat) (sprite : Nat → uint8_t) :
    appoooh_draw_sprites { s with flip_screen := true } gfx sprite =
      (appoooh_draw_sprites { s with flip_screen := false } gfx sprite).map
        (fun b => { b with sx := 239 - b.sx, sy := 239 - b.sy,
                           flipx := if b.flipx = 0 then 1 else 0, flipy := 1 }) ∧
    robowres_draw_sprites { s with flip_screen := true } gfx sprite =
      (robowres_draw_sprites { s with flip_screen := false } gfx sprite).map
        (fun b => { b with sx := 239 - b.sx, sy := 239 - b.sy,
                           flipx := if b.flipx = 0 then 1 else 0, flipy := 1 }) ∧
    ((appoooh_draw_sprites { s with flip_screen := false } gfx sprite_at_10_10)[7]?).map
        (fun b => (b.sx, b.sy, b.flipx, b.flipy)) = some (10, 10, 0, 0) ∧
    ((appoooh_draw_sprites { s with flip_screen := true } gfx sprite_at_10_10)[7]?).map
        (fun b => (b.sx, b.sy, b.flipx, b.flipy)) = some (229, 229, 1, 1) ∧
    ((robowres_draw_sprites { s with flip_screen := false } gfx sprite_at_10_10)[7]?).map
        (fun b => (b.sx, b.sy, b.flipx, b.flipy)) = some (10, 10, 0, 0) ∧
    ((robowres_draw_sprites { s with flip_screen := true } gfx sprite_at_10_10)[7]?).map
        (fun b => (b.sx, b.sy, b.flipx, b.flipy)) = some (229, 229, 1, 1) := by
  refine ⟨?_, ?_, ?_, ?_, ?_, ?_⟩
  · rw [appoooh_draw_sprites, appoooh_draw_sprites, sprite_loop_map]
    rfl
  · rw [robowres_draw_sprites, robowres_draw_sprites, sprite_loop_map]
    rfl
  · rfl
  · rfl
  · rfl
  · rfl

/-- The blit of slot `k` is the one issued at position `7 - k` of the loop. -/
theorem sprite_loop_slot (body : Nat → blit) (k : Nat) (hk : k < 8) :
    (sprite_loop body 8)[7 - k]? = some (body (4 * k)) := by
  interval_cases k <;> rfl

/-- C7 fails as stated: with every sprite byte zero (decoded code 0, so the
blit code is the offset itself), the frame of `screen_update_appoooh` blits
all 8 sprites of the secondary bank with code 0, not 0x200, and the frame of
`screen_update_robowres` blits all 8 sprites of the primary bank with code
0x200, not 0. -/
theorem code_offset_not_bank_specific :
    (bank_blits (screen_update_appoooh zero_state).2 .secondary).length = 8 ∧
    (∀ b, b ∈ bank_blits (screen_update_appoooh zero_state).2 .secondary → b.code = 0) ∧
    (bank_blits (screen_update_robowres zero_state).2 .primary).length = 8 ∧
    (∀ b, b ∈ bank_blits (screen_update_robowres zero_state).2 .primary → b.code = 0x200) := by
  decide

/-- C7 as amended: the constant added to a sprite code belongs to the drawing
routine, not to the bank. In a frame of `screen_update_appoooh` the sprite of
every slot of either bank is blitted with code offset 0, in a frame of
`screen_update_robowres` with code offset 0x200; what the banks differ in is
the graphics set, 2 for the primary bank and 3 for the secondary. -/
theorem code_offset_by_routine (s : appoooh_state) (bank : sprite_bank) (k : Nat) (hk : k < 8) :
    ((bank_blits (screen_update_appoooh s).2 bank)[7 - k]?).map blit.code = some
      (((s.spriteram bank (4 * k + 1)).val >>> 2)
        + (((s.spriteram bank (4 * k + 2)).val >>> 5) &&& 7) * 0x40 + 0) ∧
    ((bank_blits (screen_update_robowres s).2 bank)[7 - k]?).map blit.code = some
      (((s.spriteram bank (4 * k + 1)).val >>> 2)
        + (((s.spriteram bank (4 * k + 2)).val >>> 5) &&& 7) * 0x40 + 0x200) ∧
    ((bank_blits (screen_update_appoooh s).2 bank)[7 - k]?).map blit.gfx = some
      (match bank with | .primary => 2 | .secondary => 3) ∧
    ((bank_blits (screen_update_robowres s).2 bank)[7 - k]?).map blit.gfx = some
      (match bank with | .primary => 2 | .secondary => 3) := by
  cases bank
  · rw [(bank_blits_appoooh s).1, (bank_blits_robowres s).1, appoooh_draw_sprites,
      robowres_draw_sprites, sprite_loop_slot _ k hk, sprite_loop_slot _ k hk]
    refine ⟨rfl, ?_, rfl, rfl⟩
    simp only [Option.map_some', robowres_sprite, appoooh_state.spriteram, Option.some.injEq]
    omega
  · rw [(bank_blits_appoooh s).2, (bank_blits_robowres s).2, appoooh_draw_sprites,
      robowres_draw_sprites, sprite_loop_slot _ k hk, sprite_loop_slot _ k hk]
    refine ⟨rfl, ?_, rfl, rfl⟩
    simp only [Option.map_some', robowres_sprite, appoooh_state.spriteram, Option.some.injEq]
    omega

/-- C7 as amended, at a concrete input: slot 0 of the secondary bank of the
just-started machine. -/
theorem code_offset_by_routine_witness :
    ((bank_blits (screen_update_appoooh zero_state).2 .secondary)[7 - 0]?).map blit.code = some
      (((zero_state.spriteram .secondary (4 * 0 + 1)).val >>> 2)
        + (((zero_state.spriteram .secondary (4 * 0 + 2)).val >>> 5) &&& 7) * 0x40 + 0) ∧
    ((bank_blits (screen_update_robowres zero_state).2 .secondary)[7 - 0]?).map blit.code = some
      (((zero_state.spriteram .secondary (4 * 0 + 1)).val >>> 2)
        + (((zero_state.spriteram .secondary (4 * 0 + 2)).val >>> 5) &&& 7) * 0x40 + 0x200) ∧
    ((bank_blits (screen_update_appoooh zero_state).2 .secondary)[7 - 0]?).map blit.gfx = some
      (match sprite_bank.secondary with | .primary => 2 | .secondary => 3) ∧
    ((bank_blits (screen_update_robowres zero_state).2 .secondary)[7 - 0]?).map blit.gfx = some
      (match sprite_bank.secondary with | .primary => 2 | .secondary => 3) :=
  code_offset_by_routine zero_state .secondary 0 (by decide)

set_option maxRecDepth 100000 in
/-- The bit fields of a byte as `out_w` extracts them, against the bits
themselves. -/
theorem out_w_fields (d : uint8_t) :
    d.val &&& 1 = (d.val.testBit 0).toNat ∧
    (decide (d.val &&& 0x02 ≠ 0) = true ↔ d.val.testBit 1 = true) ∧
    (d.val &&& 0x30) >>> 4 = (d.val >>> 4) &&& 3 ∧
    (d.val &&& 0x30) >>> 4 ≤ 3 ∧
    (if d.val &&& 0x40 ≠ 0 then 1 else 0) = (d.val.testBit 6).toNat := by
  revert d
  decide

/-- C8: after `out_w(d)`, from any prior state, the NMI-enable flag is bit 0
of `d`, the screen-flip flag is set iff bit 1 of `d` is set, the priority
code is `(d >> 4) & 3` (so at most 3) and the selected ROM bank is bit 6 of
`d`; a second machine in any other state, written a byte agreeing with `d` on
the bits of a field, ends with the same value of that field; the video
memories, the sprite tables, the scroll value and the tile caches are left
unchanged. -/
theorem out_w_latch (s : appoooh_state) (d : uint8_t) :
    (out_w s d).m_nmi_mask = (d.val.testBit 0).toNat ∧
    ((out_w s d).flip_screen = true ↔ d.val.testBit 1 = true) ∧
    (out_w s d).m_priority = (d.val >>> 4) &&& 3 ∧
    (out_w s d).m_priority ≤ 3 ∧
    (out_w s d).bank1 = (d.val.testBit 6).toNat ∧
    (∀ (s2 : appoooh_state) (d2 : uint8_t),
      (d2.val.testBit 0 = d.val.testBit 0 → (out_w s2 d2).m_nmi_mask = (out_w s d).m_nmi_mask) ∧
      (d2.val.testBit 1 = d.val.testBit 1 → (out_w s2 d2).flip_screen = (out_w s d).flip_screen) ∧
      (d2.val.testBit 4 = d.val.testBit 4 → d2.val.testBit 5 = d.val.testBit 5 →
        (out_w s2 d2).m_priority = (out_w s d).m_priority) ∧
      (d2.val.testBit 6 = d.val.testBit 6 → (out_w s2 d2).bank1 = (out_w s d).bank1)) ∧
    (out_w s d).m_fg_videoram = s.m_fg_videoram ∧
    (out_w s d).m_fg_colorram = s.m_fg_colorram ∧
    (out_w s d).m_bg_videoram = s.m_bg_videoram ∧
    (out_w s d).m_bg_colorram = s.m_bg_colorram ∧
    (out_w s d).m_spriteram = s.m_spriteram ∧
    (out_w s d).m_spriteram_2 = s.m_spriteram_2 ∧
    (out_w s d).m_scroll_x = s.m_scroll_x ∧
    (out_w s d).m_fg_tilemap = s.m_fg_tilemap ∧
    (out_w s d).m_bg_tilemap = s.m_bg_tilemap := by
  obtain ⟨h0, h1, h45, hle, h6⟩ := out_w_fields d
  have hnmi : ∀ (t : appoooh_state) (e : uint8_t), (out_w t e).m_nmi_mask = e.val &&& 1 :=
    fun _ _ => rfl
  have hflip : ∀ (t : appoooh_state) (e : uint8_t),
      (out_w t e).flip_screen = decide (e.val &&& 0x02 ≠ 0) := fun _ _ => rfl
  have hpri : ∀ (t : appoooh_state) (e : uint8_t),
      (out_w t e).m_priority = (e.val &&& 0x30) >>> 4 := fun _ _ => rfl
  have hbank : ∀ (t : appoooh_state) (e : uint8_t),
      (out_w t e).bank1 = if e.val &&& 0x40 ≠ 0 then 1 else 0 := fun _ _ => rfl
  refine ⟨by rw [hnmi, h0], by rw [hflip]; exact h1, by rw [hpri, h45], by rw [hpri]; exact hle,
    by rw [hbank, h6], ?_, rfl, rfl, rfl, rfl, rfl, rfl, rfl, rfl, rfl⟩
  intro s2 d2
  obtain ⟨g0, g1, g45, _, g6⟩ := out_w_fields d2
  refine ⟨?_, ?_, ?_, ?_⟩
  · intro h
    rw [hnmi, hnmi, h0, g0, h]
  · intro h
    rw [hflip, hflip]
    have e1 : (decide (d2.val &&& 0x02 ≠ 0) = true ↔ decide (d.val &&& 0x02 ≠ 0) = true) := by
      rw [g1, h1, h]
    exact Bool.eq_iff_iff.mpr e1
  · intro h4 h5
    rw [hpri, hpri, h45, g45]
    apply Nat.eq_of_testBit_eq
    intro i
    rw [Nat.testBit_and, Nat.testBit_and, Nat.testBit_shiftRight, Nat.testBit_shiftRight]
    match i with
    | 0 => rw [h4]
    | 1 => rw [h5]
    | j + 2 =>
      have h3 : Nat.testBit 3 (j + 2) = false := by
        apply Nat.testBit_lt_two_pow
        calc 3 < 2 ^ 2 := by norm_num
          _ ≤ 2 ^ (j + 2) := Nat.pow_le_pow_right (by norm_num) (by omega)
      simp [h3]
  · intro h
    rw [hbank, hbank, h6, g6, h]

set_option maxRecDepth 100000 in
/-- The flip test of the tile callbacks is a test of bit 4 of the attribute. -/
theorem attr_flip_bit (a : uint8_t) : (a.val &&& 0x10 ≠ 0) ↔ a.val.testBit 4 = true := by
  revert a
  decide

/-- C9: for every cell `c` and every content of the memories, the tile info
of the foreground callback is graphics set 0, code
`graphic[c] + 256 * ((attribute[c] >> 5) & 7)`, colour group
`attribute[c] & 0x0F`, and the horizontal-flip flag exactly when bit 4 of
`attribute[c]` is set, all read from the foreground memories at `c` alone;
the background callback does the same from the background memories with
graphics set 1. -/
theorem tile_info_derivation (s : appoooh_state) (c : Nat) :
    get_fg_tile_info s c =
      { gfxnum := 0,
        code := (s.m_fg_videoram c).val + 256 * (((s.m_fg_colorram c).val >>> 5) &&& 7),
        color := (s.m_fg_colorram c).val &&& 0x0F,
        flags := if (s.m_fg_colorram c).val.testBit 4 then TILEMAP_FLIPX else 0 } ∧
    get_bg_tile_info s c =
      { gfxnum := 1,
        code := (s.m_bg_videoram c).val + 256 * (((s.m_bg_colorram c).val >>> 5) &&& 7),
        color := (s.m_bg_colorram c).val &&& 0x0F,
        flags := if (s.m_bg_colorram c).val.testBit 4 then TILEMAP_FLIPX else 0 } ∧
    ((get_fg_tile_info s c).flags &&& TILEMAP_FLIPX ≠ 0 ↔ (s.m_fg_colorram c).val.testBit 4 = true) ∧
    ((get_bg_tile_info s c).flags &&& TILEMAP_FLIPX ≠ 0 ↔ (s.m_bg_colorram c).val.testBit 4 = true) ∧
    (∀ t : appoooh_state, t.m_fg_videoram c = s.m_fg_videoram c →
      t.m_fg_colorram c = s.m_fg_colorram c → get_fg_tile_info t c = get_fg_tile_info s c) ∧
    (∀ t : appoooh_state, t.m_bg_videoram c = s.m_bg_videoram c →
      t.m_bg_colorram c = s.m_bg_colorram c → get_bg_tile_info t c = get_bg_tile_info s c) := by
  have hfg : get_fg_tile_info s c =
      { gfxnum := 0,
        code := (s.m_fg_videoram c).val + 256 * (((s.m_fg_colorram c).val >>> 5) &&& 7),
        color := (s.m_fg_colorram c).val &&& 0x0F,
        flags := if (s.m_fg_colorram c).val.testBit 4 then TILEMAP_FLIPX else 0 } := by
    unfold get_fg_tile_info
    by_cases h : (s.m_fg_colorram c).val.testBit 4 = true
    · simp [h, (attr_flip_bit _).mpr h]
    · have h2 : ¬ ((s.m_fg_colorram c).val &&& 0x10 ≠ 0) := fun hh => h ((attr_flip_bit _).mp hh)
      simp only [h2, if_false, h]
      simp
  have hbg : get_bg_tile_info s c =
      { gfxnum := 1,
        code := (s.m_bg_videoram c).val + 256 * (((s.m_bg_colorram c).val >>> 5) &&& 7),
        color := (s.m_bg_colorram c).val &&& 0x0F,
        flags := if (s.m_bg_colorram c).val.testBit 4 then TILEMAP_FLIPX else 0 } := by
    unfold get_bg_tile_info
    by_cases h : (s.m_bg_colorram c).val.testBit 4 = true
    · simp [h, (attr_flip_bit _).mpr h]
    · have h2 : ¬ ((s.m_bg_colorram c).val &&& 0x10 ≠ 0) := fun hh => h ((attr_flip_bit _).mp hh)
      simp only [h2, if_false, h]
      simp
  refine ⟨hfg, hbg, ?_, ?_, ?_, ?_⟩
  · rw [hfg]
    by_cases h : (s.m_fg_colorram c).val.testBit 4 = true <;> simp [h, TILEMAP_FLIPX]
  · rw [hbg]
    by_cases h : (s.m_bg_colorram c).val.testBit 4 = true <;> simp [h, TILEMAP_FLIPX]
  · intro t hv hc
    simp only [get_fg_tile_info, hv, hc]
  · intro t hv hc
    simp only [get_bg_tile_info, hv, hc]

/-- The tile callbacks do not read the scroll register. -/
theorem callback_run_scroll_w (cb : tile_callback) (s : appoooh_state) (d : uint8_t) :
    cb.run (scroll_w s d) = cb.run s := by
  cases cb <;> rfl

/-- The tile callbacks do not read the scroll register, also once the
background tile cache has been drawn. -/
theorem callback_run_scroll_w_drawn (cb : tile_callback) (s : appoooh_state) (d : uint8_t)
    (t : tilemap_t) :
    cb.run { scroll_w s d with m_bg_tilemap := t } = cb.run { s with m_bg_tilemap := t } := by
  cases cb <;> rfl

/-- C10 fails as stated: after `scroll_w(5)` on the just-started machine the
scroll register holds 5, yet the one foreground draw of the frame is made
with horizontal scroll 0. -/
theorem scroll_register_not_applied :
    (scroll_w zero_state 5).m_scroll_x = 5 ∧
    (layer_draws (screen_update_appoooh (scroll_w zero_state 5)).2 .fg).map tilemap_t.scrollx
      = [0] ∧
    (layer_draws (screen_update_appoooh (scroll_w zero_state 5)).2 .fg).map tilemap_t.scrollx
      ≠ [5] := by
  decide

/-- Every tile cache drawn by a frame is drawn with the horizontal scroll the
cache had before the frame. -/
theorem layer_draws_scrollx (s : appoooh_state) (calls : List draw_call)
    (hcalls : calls = (screen_update_appoooh s).2 ∨ calls = (screen_update_robowres s).2)
    (layer : tile_layer) (t : tilemap_t) (ht : t ∈ layer_draws calls layer) :
    t.scrollx = (match layer with
      | .fg => s.m_fg_tilemap.scrollx
      | .bg => s.m_bg_tilemap.scrollx) := by
  rcases hcalls with rfl | rfl
  · rw [screen_update_appoooh_calls] at ht
    by_cases h0 : s.m_priority = 0
    · cases layer <;> simp [layer_draws, h0] at ht <;> subst ht <;> rfl
    · by_cases h1 : s.m_priority = 1
      · cases layer <;> simp [layer_draws, h1] at ht <;> subst ht <;> rfl
      · cases layer <;> simp [layer_draws, h0, h1] at ht <;> subst ht <;> rfl
  · rw [screen_update_robowres_calls] at ht
    by_cases h0 : s.m_priority = 0
    · cases layer <;> simp [layer_draws, h0] at ht <;> subst ht <;> rfl
    · by_cases h1 : s.m_priority = 1
      · cases layer <;> simp [layer_draws, h1] at ht <;> subst ht <;> rfl
      · cases layer <;> simp [layer_draws, h0, h1] at ht <;> subst ht <;> rfl

/-- C10 as amended: `scroll_w` stores the written byte in `m_scroll_x` and
changes nothing else, and a frame render never reads it: the calls of a frame
are the same whatever was written, and in a machine started by `video_start`
the foreground and the background are both drawn with horizontal scroll 0. -/
theorem scroll_register_stored_only (s : appoooh_state) (d : uint8_t) :
    (scroll_w s d).m_scroll_x = d.val ∧
    scroll_w s d = { s with m_scroll_x := d.val } ∧
    (screen_update_appoooh (scroll_w s d)).2 = (screen_update_appoooh s).2 ∧
    (screen_update_robowres (scroll_w s d)).2 = (screen_update_robowres s).2 ∧
    (∀ layer t, t ∈ layer_draws (screen_update_appoooh (scroll_w (video_start s) d)).2 layer →
      t.scrollx = 0) ∧
    (∀ layer t, t ∈ layer_draws (screen_update_robowres (scroll_w (video_start s) d)).2 layer →
      t.scrollx = 0) := by
  have hA : (screen_update_appoooh (scroll_w s d)).2 = (screen_update_appoooh s).2 := by
    rw [screen_update_appoooh_calls, screen_update_appoooh_calls]
    simp only [callback_run_scroll_w, callback_run_scroll_w_drawn]
    rfl
  have hR : (screen_update_robowres (scroll_w s d)).2 = (screen_update_robowres s).2 := by
    rw [screen_update_robowres_calls, screen_update_robowres_calls]
    simp only [callback_run_scroll_w, callback_run_scroll_w_drawn]
    rfl
  refine ⟨rfl, rfl, hA, hR, ?_, ?_⟩
  · intro layer t ht
    rw [layer_draws_scrollx (scroll_w (video_start s) d) _ (Or.inl rfl) layer t ht]
    cases layer <;> rfl
  · intro layer t ht
    rw [layer_draws_scrollx (scroll_w (video_start s) d) _ (Or.inr rfl) layer t ht]
    cases layer <;> rfl

/-- Marking a cell stale adds that cell, and no other, to the stale set. -/
theorem mark_tile_dirty_stale (t : tilemap_t) (c a : Nat) :
    (t.mark_tile_dirty c).stale a = true ↔ (a = c ∨ t.stale a = true) := by
  unfold tilemap_t.mark_tile_dirty
  by_cases h : a = c <;> simp [h]

/-- C11: for each of `fg_videoram_w`, `fg_colorram_w`, `bg_videoram_w` and
`bg_colorram_w`, every cell `c` and byte `v`: after the write the addressed
array holds `v` at `c` and is unchanged elsewhere, the stale set of the tile
cache of that layer is the old one with exactly `c` added, its cached tile
info is untouched, and the other three arrays, the tile cache of the other
layer, the sprite tables, the scroll value and the latch fields are
unchanged. -/
theorem write_marks_one_cell (s : appoooh_state) (c : Nat) (v : uint8_t) :
    ((fg_videoram_w s c v).m_fg_videoram c = v ∧
     (∀ a, a ≠ c → (fg_videoram_w s c v).m_fg_videoram a = s.m_fg_videoram a) ∧
     (∀ a, (fg_videoram_w s c v).m_fg_tilemap.stale a = true ↔ (a = c ∨ s.m_fg_tilemap.stale a = true)) ∧
     (fg_videoram_w s c v).m_fg_tilemap.cache = s.m_fg_tilemap.cache ∧
     (fg_videoram_w s c v).m_fg_colorram = s.m_fg_colorram ∧
     (fg_videoram_w s c v).m_bg_videoram = s.m_bg_videoram ∧
     (fg_videoram_w s c v).m_bg_colorram = s.m_bg_colorram ∧
     (fg_videoram_w s c v).m_bg_tilemap = s.m_bg_tilemap ∧
     (fg_videoram_w s c v).m_spriteram = s.m_spriteram ∧
     (fg_videoram_w s c v).m_spriteram_2 = s.m_spriteram_2 ∧
     (fg_videoram_w s c v).m_scroll_x = s.m_scroll_x ∧
     (fg_videoram_w s c v).m_nmi_mask = s.m_nmi_mask ∧
     (fg_videoram_w s c v).flip_screen = s.flip_screen ∧
     (fg_videoram_w s c v).m_priority = s.m_priority ∧
     (fg_videoram_w s c v).bank1 = s.bank1) ∧
    ((fg_colorram_w s c v).m_fg_colorram c = v ∧
     (∀ a, a ≠ c → (fg_colorram_w s c v).m_fg_colorram a = s.m_fg_colorram a) ∧
     (∀ a, (fg_colorram_w s c v).m_fg_tilemap.stale a = true ↔ (a = c ∨ s.m_fg_tilemap.stale a = true)) ∧
     (fg_colorram_w s c v).m_fg_tilemap.cache = s.m_fg_tilemap.cache ∧
     (fg_colorram_w s c v).m_fg_videoram = s.m_fg_videoram ∧
     (fg_colorram_w s c v).m_bg_videoram = s.m_bg_videoram ∧
     (fg_colorram_w s c v).m_bg_colorram = s.m_bg_colorram ∧
     (fg_colorram_w s c v).m_bg_tilemap = s.m_bg_tilemap ∧
     (fg_colorram_w s c v).m_spriteram = s.m_spriteram ∧
     (fg_colorram_w s c v).m_spriteram_2 = s.m_spriteram_2 ∧
     (fg_colorram_w s c v).m_scroll_x = s.m_scroll_x ∧
     (fg_colorram_w s c v).m_nmi_mask = s.m_nmi_mask ∧
     (fg_colorram_w s c v).flip_screen = s.flip_screen ∧
     (fg_colorram_w s c v).m_priority = s.m_priority ∧
     (fg_colorram_w s c v).bank1 = s.bank1) ∧
    ((bg_videoram_w s c v).m_bg_videoram c = v ∧
     (∀ a, a ≠ c → (bg_videoram_w s c v).m_bg_videoram a = s.m_bg_videoram a) ∧
     (∀ a, (bg_videoram_w s c v).m_bg_tilemap.stale a = true ↔ (a = c ∨ s.m_bg_tilemap.stale a = true)) ∧
     (bg_videoram_w s c v).m_bg_tilemap.cache = s.m_bg_tilemap.cache ∧
     (bg_videoram_w s c v).m_fg_videoram = s.m_fg_videoram ∧
     (bg_videoram_w s c v).m_fg_colorram = s.m_fg_colorram ∧
     (bg_videoram_w s c v).m_bg_colorram = s.m_bg_colorram ∧
     (bg_videoram_w s c v).m_fg_tilemap = s.m_fg_tilemap ∧
     (bg_videoram_w s c v).m_spriteram = s.m_spriteram ∧
     (bg_videoram_w s c v).m_spriteram_2 = s.m_spriteram_2 ∧
     (bg_videoram_w s c v).m_scroll_x = s.m_scroll_x ∧
     (bg_videoram_w s c v).m_nmi_mask = s.m_nmi_mask ∧
     (bg_videoram_w s c v).flip_screen = s.flip_screen ∧
     (bg_videoram_w s c v).m_priority = s.m_priority ∧
     (bg_videoram_w s c v).bank1 = s.bank1) ∧
    ((bg_colorram_w s c v).m_bg_colorram c = v ∧
     (∀ a, a ≠ c → (bg_colorram_w s c v).m_bg_colorram a = s.m_bg_colorram a) ∧
     (∀ a, (bg_colorram_w s c v).m_bg_tilemap.stale a = true ↔ (a = c ∨ s.m_bg_tilemap.stale a = true)) ∧
     (bg_colorram_w s c v).m_bg_tilemap.cache = s.m_bg_tilemap.cache ∧
     (bg_colorram_w s c v).m_fg_videoram = s.m_fg_videoram ∧
     (bg_colorram_w s c v).m_fg_colorram = s.m_fg_colorram ∧
     (bg_colorram_w s c v).m_bg_videoram = s.m_bg_videoram ∧
     (bg_colorram_w s c v).m_fg_tilemap = s.m_fg_tilemap ∧
     (bg_colorram_w s c v).m_spriteram = s.m_spriteram ∧
     (bg_colorram_w s c v).m_spriteram_2 = s.m_spriteram_2 ∧
     (bg_colorram_w s c v).m_scroll_x = s.m_scroll_x ∧
     (bg_colorram_w s c v).m_nmi_mask = s.m_nmi_mask ∧
     (bg_colorram_w s c v).flip_screen = s.flip_screen ∧
     (bg_colorram_w s c v).m_priority = s.m_priority ∧
     (bg_colorram_w s c v).bank1 = s.bank1) := by
  refine ⟨⟨?_, ?_, ?_, rfl, rfl, rfl, rfl, rfl, rfl, rfl, rfl, rfl, rfl, rfl, rfl⟩,
    ⟨?_, ?_, ?_, rfl, rfl, rfl, rfl, rfl, rfl, rfl, rfl, rfl, rfl, rfl, rfl⟩,
    ⟨?_, ?_, ?_, rfl, rfl, rfl, rfl, rfl, rfl, rfl, rfl, rfl, rfl, rfl, rfl⟩,
    ⟨?_, ?_, ?_, rfl, rfl, rfl, rfl, rfl, rfl, rfl, rfl, rfl, rfl, rfl, rfl⟩⟩
  all_goals first
    | exact fun a => mark_tile_dirty_stale _ c a
    | (intro a ha; simp [fg_videoram_w, fg_colorram_w, bg_videoram_w, bg_colorram_w, store, ha])
    | simp [fg_videoram_w, fg_colorram_w, bg_videoram_w, bg_colorram_w, store]

/-- The state a frame of `screen_update_appoooh` ends in: both tile caches
refreshed, nothing else changed. -/
theorem screen_update_appoooh_state (s : appoooh_state) :
    (screen_update_appoooh s).1 =
      { s with
        m_bg_tilemap := s.m_bg_tilemap.refresh (s.m_bg_tilemap.callback.run s),
        m_fg_tilemap := s.m_fg_tilemap.refresh (s.m_fg_tilemap.callback.run
          { s with m_bg_tilemap := s.m_bg_tilemap.refresh (s.m_bg_tilemap.callback.run s) }) } := by
  by_cases h0 : s.m_priority = 0
  · simp [screen_update_appoooh, frame.bg_tilemap_draw, frame.fg_tilemap_draw,
      frame.appoooh_draw_sprites, h0]
  · by_cases h1 : s.m_priority = 1
    · simp [screen_update_appoooh, frame.bg_tilemap_draw, frame.fg_tilemap_draw,
        frame.appoooh_draw_sprites, h1]
    · simp [screen_update_appoooh, frame.bg_tilemap_draw, frame.fg_tilemap_draw,
        frame.appoooh_draw_sprites, h0, h1]

/-- The state a frame of `screen_update_robowres` ends in: the same as for
`screen_update_appoooh`. -/
theorem screen_update_robowres_state (s : appoooh_state) :
    (screen_update_robowres s).1 =
      { s with
        m_bg_tilemap := s.m_bg_tilemap.refresh (s.m_bg_tilemap.callback.run s),
        m_fg_tilemap := s.m_fg_tilemap.refresh (s.m_fg_tilemap.callback.run
          { s with m_bg_tilemap := s.m_bg_tilemap.refresh (s.m_bg_tilemap.callback.run s) }) } := by
  by_cases h0 : s.m_priority = 0
  · simp [screen_update_robowres, frame.bg_tilemap_draw, frame.fg_tilemap_draw,
      frame.robowres_draw_sprites, h0]
  · by_cases h1 : s.m_priority = 1
    · simp [screen_update_robowres, frame.bg_tilemap_draw, frame.fg_tilemap_draw,
        frame.robowres_draw_sprites, h1]
    · simp [screen_update_robowres, frame.bg_tilemap_draw, frame.fg_tilemap_draw,
        frame.robowres_draw_sprites, h0, h1]

/-- A refresh through the derivation a cache is coherent with leaves the
cache coherent, with every cell clean and holding the derived tile info. -/
theorem refresh_coherent (t : tilemap_t) (info : Nat → tile_data) (h : t.coherent info) :
    (t.refresh info).coherent info ∧
    (∀ c, (t.refresh info).stale c = false) ∧
    (∀ c, (t.refresh info).cache c = info c) ∧
    (t.refresh info).callback = t.callback := by
  have hc : ∀ c, (t.refresh info).cache c = info c := by
    intro c
    show (if t.stale c = true then info c else t.cache c) = info c
    by_cases hs : t.stale c = true
    · rw [if_pos hs]
    · rw [if_neg hs]
      exact h c (by simpa using hs)
  exact ⟨fun c _ => hc c, fun _ => rfl, hc, rfl⟩

/-- A write into a layer keeps its tile cache coherent: the written cell is
marked stale, every other cell derives the same tile info as before. -/
theorem mark_dirty_coherent (t : tilemap_t) (info info2 : Nat → tile_data) (c : Nat)
    (h : t.coherent info) (hsame : ∀ a, a ≠ c → info2 a = info a) :
    (t.mark_tile_dirty c).coherent info2 := by
  intro a ha
  have hne : a ≠ c := by
    intro hac
    have := (mark_tile_dirty_stale t c a).mpr (Or.inl hac)
    rw [ha] at this
    exact absurd this (by simp)
  have hst : t.stale a = false := by
    cases hta : t.stale a with
    | false => rfl
    | true =>
      have := (mark_tile_dirty_stale t c a).mpr (Or.inr hta)
      rw [ha] at this
      exact absurd this (by simp)
  rw [hsame a hne]
  have hcache : (t.mark_tile_dirty c).cache a = t.cache a := rfl
  rw [hcache]
  exact h a hst

/-- The four write handlers preserve cache coherence. -/
theorem writes_keep_coherent (s : appoooh_state) (h : cache_coherent s) (c : Nat) (v : uint8_t) :
    cache_coherent (fg_videoram_w s c v) ∧ cache_coherent (fg_colorram_w s c v) ∧
    cache_coherent (bg_videoram_w s c v) ∧ cache_coherent (bg_colorram_w s c v) := by
  obtain ⟨hb, hf, hg⟩ := h
  refine ⟨⟨hb, ?_, fun a ha => hg a ha⟩, ⟨hb, ?_, fun a ha => hg a ha⟩,
    ⟨hb, fun a ha => hf a ha, ?_⟩, ⟨hb, fun a ha => hf a ha, ?_⟩⟩
  · apply mark_dirty_coherent _ _ _ c hf
    intro a ha
    simp [get_fg_tile_info, fg_videoram_w, store, ha]
  · apply mark_dirty_coherent _ _ _ c hf
    intro a ha
    simp [get_fg_tile_info, fg_colorram_w, store, ha]
  · apply mark_dirty_coherent _ _ _ c hg
    intro a ha
    simp [get_bg_tile_info, bg_videoram_w, store, ha]
  · apply mark_dirty_coherent _ _ _ c hg
    intro a ha
    simp [get_bg_tile_info, bg_colorram_w, store, ha]

/-- A draw of either tile cache preserves cache coherence and leaves the
drawn cache clean. -/
theorem draws_keep_coherent (s : appoooh_state) (h : cache_coherent s) (calls : List draw_call) :
    cache_coherent (frame.fg_tilemap_draw (s, calls)).1 ∧
    (∀ a, (frame.fg_tilemap_draw (s, calls)).1.m_fg_tilemap.stale a = false) ∧
    cache_coherent (frame.bg_tilemap_draw (s, calls)).1 ∧
    (∀ a, (frame.bg_tilemap_draw (s, calls)).1.m_bg_tilemap.stale a = false) := by
  obtain ⟨⟨hbf, hbb⟩, hf, hg⟩ := h
  have rf := refresh_coherent s.m_fg_tilemap (get_fg_tile_info s) hf
  have rg := refresh_coherent s.m_bg_tilemap (get_bg_tile_info s) hg
  have ef : s.m_fg_tilemap.callback.run s = get_fg_tile_info s := by rw [hbf]; rfl
  have eg : s.m_bg_tilemap.callback.run s = get_bg_tile_info s := by rw [hbb]; rfl
  refine ⟨⟨⟨?_, hbb⟩, ?_, fun a ha => hg a ha⟩, ?_, ⟨⟨hbf, ?_⟩, fun a ha => hf a ha, ?_⟩, ?_⟩
  · show (s.m_fg_tilemap.refresh (s.m_fg_tilemap.callback.run s)).callback = .fg
    rw [ef, rf.2.2.2, hbf]
  · show (s.m_fg_tilemap.refresh (s.m_fg_tilemap.callback.run s)).coherent (get_fg_tile_info s)
    rw [ef]; exact rf.1
  · intro a; rfl
  · show (s.m_bg_tilemap.refresh (s.m_bg_tilemap.callback.run s)).callback = .bg
    rw [eg, rg.2.2.2, hbb]
  · show (s.m_bg_tilemap.refresh (s.m_bg_tilemap.callback.run s)).coherent (get_bg_tile_info s)
    rw [eg]; exact rg.1
  · intro a; rfl

/-- A whole frame preserves cache coherence and leaves both caches clean. -/
theorem frame_keeps_coherent (s : appoooh_state) (h : cache_coherent s) :
    cache_coherent (screen_update_appoooh s).1 ∧
    cache_coherent (screen_update_robowres s).1 ∧
    (∀ a, (screen_update_appoooh s).1.m_fg_tilemap.stale a = false ∧
          (screen_update_appoooh s).1.m_bg_tilemap.stale a = false ∧
          (screen_update_robowres s).1.m_fg_tilemap.stale a = false ∧
          (screen_update_robowres s).1.m_bg_tilemap.stale a = false) := by
  have hbg := (draws_keep_coherent s h []).2.2.1
  have hfg := (draws_keep_coherent (frame.bg_tilemap_draw (s, [])).1 hbg []).1
  have hstate : (screen_update_appoooh s).1
      = (frame.fg_tilemap_draw ((frame.bg_tilemap_draw (s, [])).1, [])).1 := by
    rw [screen_update_appoooh_state]; rfl
  have hstateR : (screen_update_robowres s).1
      = (frame.fg_tilemap_draw ((frame.bg_tilemap_draw (s, [])).1, [])).1 := by
    rw [screen_update_robowres_state]; rfl
  refine ⟨by rw [hstate]; exact hfg, by rw [hstateR]; exact hfg, ?_⟩
  intro a
  rw [hstate, hstateR]
  exact ⟨rfl, rfl, rfl, rfl⟩

/-- A machine just started is cache coherent: every cell is stale. -/
theorem video_start_coherent (s : appoooh_state) : cache_coherent (video_start s) :=
  ⟨⟨rfl, rfl⟩, fun _ hc => absurd hc (by simp [video_start, tilemap_t.create,
      tilemap_t.set_transparent_pen, tilemap_t.set_scrolldy]),
    fun _ hc => absurd hc (by simp [video_start, tilemap_t.create, tilemap_t.set_scrolldy])⟩

/-- C12: cache coherence (each tile cache bound to its callback, and the
cached tile info of every non-stale cell equal to the tile info derived from
the current graphic and attribute bytes of the cell) holds after
`video_start` and is preserved by every graphic write, every attribute write
and every draw, for both layers, a whole frame included; and after a single
write to cell `c` into a layer whose cache was fully clean, the next draw of
that layer re-derives tile info for cell `c` and for no other cell. -/
theorem cache_coherence_invariant (s : appoooh_state) (h : cache_coherent s) (c : Nat)
    (v : uint8_t) :
    cache_coherent (video_start s) ∧
    cache_coherent (fg_videoram_w s c v) ∧ cache_coherent (fg_colorram_w s c v) ∧
    cache_coherent (bg_videoram_w s c v) ∧ cache_coherent (bg_colorram_w s c v) ∧
    cache_coherent (frame.fg_tilemap_draw (s, [])).1 ∧
    cache_coherent (frame.bg_tilemap_draw (s, [])).1 ∧
    cache_coherent (screen_update_appoooh s).1 ∧
    cache_coherent (screen_update_robowres s).1 ∧
    ((∀ a, s.m_fg_tilemap.stale a = false) →
      (∀ a, (fg_videoram_w s c v).m_fg_tilemap.rederived a = true ↔ a = c) ∧
      (∀ a, (fg_colorram_w s c v).m_fg_tilemap.rederived a = true ↔ a = c)) ∧
    ((∀ a, s.m_bg_tilemap.stale a = false) →
      (∀ a, (bg_videoram_w s c v).m_bg_tilemap.rederived a = true ↔ a = c) ∧
      (∀ a, (bg_colorram_w s c v).m_bg_tilemap.rederived a = true ↔ a = c)) := by
  obtain ⟨w1, w2, w3, w4⟩ := writes_keep_coherent s h c v
  obtain ⟨d1, _, d2, _⟩ := draws_keep_coherent s h []
  obtain ⟨f1, f2, _⟩ := frame_keeps_coherent s h
  have one : ∀ t : tilemap_t, (∀ a, t.stale a = false) →
      ∀ a, (t.mark_tile_dirty c).rederived a = true ↔ a = c := by
    intro t hclean a
    show (t.mark_tile_dirty c).stale a = true ↔ a = c
    rw [mark_tile_dirty_stale, hclean a]
    simp
  exact ⟨video_start_coherent s, w1, w2, w3, w4, d1, d2, f1, f2,
    fun hc => ⟨one _ hc, one _ hc⟩, fun hc => ⟨one _ hc, one _ hc⟩⟩

/-- C12 at a concrete input: the started machine after one frame is
coherent with both caches clean; a write of 7 to foreground cell 5 keeps it
coherent and makes the next draw re-derive cell 5 only. -/
theorem cache_coherence_invariant_witness :
    cache_coherent drawn_state ∧
    (∀ a, drawn_state.m_fg_tilemap.stale a = false) ∧
    cache_coherent (fg_videoram_w drawn_state 5 7) ∧
    (∀ a, (fg_videoram_w drawn_state 5 7).m_fg_tilemap.rederived a = true ↔ a = 5) :=
  ⟨(frame_keeps_coherent zero_state (video_start_coherent _)).1,
   fun _ => rfl,
   (cache_coherence_invariant drawn_state
      (frame_keeps_coherent zero_state (video_start_coherent _)).1 5 7).2.1,
   ((cache_coherence_invariant drawn_state
      (frame_keeps_coherent zero_state (video_start_coherent _)).1 5 7).2.2.2.2.2.2.2.2.2.1
      (fun _ => rfl)).1⟩

/-- The blits of the sprite loop, listed by position: position `k` holds the
body run at offset `4 * (7 - k)`. -/
theorem sprite_loop_eight (body : Nat → blit) :
    sprite_loop body 8 = (List.range 8).map (fun k => body (4 * (7 - k))) := by
  rfl

/-- C13: one call of either sprite routine issues exactly 8 blits, and the
blit at position `k` (k = 0..7) is the one decoded from slot `7 - k`, that is
from the four bytes at offsets `4*(7-k) .. 4*(7-k)+3` and from no other byte
of the table; so slot 7 is drawn first and slot 0 last. -/
theorem sprite_slots_drawn_in_reverse (s : appoooh_state) (gfx : Nat) (sprite : Nat → uint8_t) :
    (appoooh_draw_sprites s gfx sprite).length = 8 ∧
    (robowres_draw_sprites s gfx sprite).length = 8 ∧
    appoooh_draw_sprites s gfx sprite =
      (List.range 8).map (fun k => appoooh_sprite s.flipy gfx sprite (4 * (7 - k))) ∧
    robowres_draw_sprites s gfx sprite =
      (List.range 8).map (fun k => robowres_sprite s.flipy gfx sprite (4 * (7 - k))) ∧
    (appoooh_draw_sprites s gfx sprite).head? = some (appoooh_sprite s.flipy gfx sprite (4 * 7)) ∧
    (appoooh_draw_sprites s gfx sprite).getLast? = some (appoooh_sprite s.flipy gfx sprite (4 * 0)) ∧
    (robowres_draw_sprites s gfx sprite).head? = some (robowres_sprite s.flipy gfx sprite (4 * 7)) ∧
    (robowres_draw_sprites s gfx sprite).getLast?
      = some (robowres_sprite s.flipy gfx sprite (4 * 0)) ∧
    (∀ (sprite2 : Nat → uint8_t) (slot : Nat),
      sprite2 (4 * slot) = sprite (4 * slot) → sprite2 (4 * slot + 1) = sprite (4 * slot + 1) →
      sprite2 (4 * slot + 2) = sprite (4 * slot + 2) →
      sprite2 (4 * slot + 3) = sprite (4 * slot + 3) →
      appoooh_sprite s.flipy gfx sprite2 (4 * slot) = appoooh_sprite s.flipy gfx sprite (4 * slot) ∧
      robowres_sprite s.flipy gfx sprite2 (4 * slot)
        = robowres_sprite s.flipy gfx sprite (4 * slot)) := by
  refine ⟨rfl, rfl, sprite_loop_eight _, sprite_loop_eight _, rfl, rfl, rfl, rfl, ?_⟩
  intro sprite2 slot h0 h1 h2 h3
  refine ⟨?_, ?_⟩ <;>
    simp only [appoooh_sprite, robowres_sprite, Nat.add_zero, h0, h1, h2, h3]

/-- C14 fails as stated: with graphic byte 0 and attribute byte 0xE0 in
foreground cell 0, the derived tile code is 1792, above 511. -/
theorem tile_code_exceeds_nine_bits :
    (fg_colorram_w zero_state 0 0xE0).m_fg_videoram 0 = 0 ∧
    (fg_colorram_w zero_state 0 0xE0).m_fg_colorram 0 = 0xE0 ∧
    (get_fg_tile_info (fg_colorram_w zero_state 0 0xE0) 0).code = 1792 ∧
    ¬ (get_fg_tile_info (fg_colorram_w zero_state 0 0xE0) 0).code ≤ 511 := by
  decide

/-- C14 as amended: for every graphic byte and attribute byte of a cell, the
tile code derived by `get_fg_tile_info` and `get_bg_tile_info` is an 11-bit
graphic index (an 8-bit low byte plus a 3-bit bank): it lies in 0..2047. -/
theorem tile_code_eleven_bits (s : appoooh_state) (c : Nat) :
    (get_fg_tile_info s c).code ≤ 2047 ∧ (get_bg_tile_info s c).code ≤ 2047 := by
  have hf := (s.m_fg_videoram c).isLt
  have hb := (s.m_bg_videoram c).isLt
  have bf : ((s.m_fg_colorram c).val >>> 5) &&& 7 ≤ 7 := Nat.and_le_right
  have bb : ((s.m_bg_colorram c).val >>> 5) &&& 7 ≤ 7 := Nat.and_le_right
  constructor
  · show (s.m_fg_videoram c).val + 256 * (((s.m_fg_colorram c).val >>> 5) &&& 7) ≤ 2047
    omega
  · show (s.m_bg_videoram c).val + 256 * (((s.m_bg_colorram c).val >>> 5) &&& 7) ≤ 2047
    omega

set_option maxRecDepth 100000 in
/-- The three components computed from any byte fit in 8 bits; red and green
reach 255 exactly when their three bits are all set. -/
theorem components_in_range (v : uint8_t) :
    red_component v.val ≤ 255 ∧ green_component v.val ≤ 255 ∧ blue_component v.val ≤ 255 ∧
    (red_component v.val = 255 ↔
      (v.val.testBit 0 = true ∧ v.val.testBit 1 = true ∧ v.val.testBit 2 = true)) ∧
    (green_component v.val = 255 ↔
      (v.val.testBit 3 = true ∧ v.val.testBit 4 = true ∧ v.val.testBit 5 = true)) := by
  revert v
  decide

/-- The colour of an in-range PROM byte is made of its three computed
components, none of them cut by the 8-bit packing. -/
theorem pen_color_components (color_prom : List uint8_t) (pen : Nat) (v : uint8_t)
    (h : color_prom[pen]? = some v) :
    pen_color color_prom pen
      = some ⟨red_component v.val, green_component v.val, blue_component v.val⟩ := by
  obtain ⟨hr, hg, hb, _, _⟩ := components_in_range v
  have e : pen_color color_prom pen = some
      (rgb_t.rgb (red_component v.val) (green_component v.val) (blue_component v.val)) := by
    unfold pen_color
    rw [h]
    rfl
  rw [e]
  simp only [rgb_t.rgb, Nat.mod_eq_of_lt (Nat.lt_succ_of_le hr),
    Nat.mod_eq_of_lt (Nat.lt_succ_of_le hg), Nat.mod_eq_of_lt (Nat.lt_succ_of_le hb)]

/-- C15: for a PROM holding the selection bytes of all entries and every
entry index `i`, both palette decoders give entry `i` the components computed
from a PROM byte, unchanged by the 8-bit packing; for every byte each of the
computed R, G and B lies in 0..255, and red and green are 255 exactly when
their three bits are all set. -/
theorem palette_components_in_range (color_prom : List uint8_t) (palette : palette_device)
    (i : Nat) (hi : i < palette.entries) (hlen : 0x20 + palette.entries ≤ color_prom.length) :
    (∃ (vA vB : uint8_t) (palA palB : palette_device),
      appoooh_palette color_prom palette = some palA ∧
      robowres_palette color_prom palette = some palB ∧
      palA.pens[i]? = some
        ⟨red_component vA.val, green_component vA.val, blue_component vA.val⟩ ∧
      palB.pens[i]? = some
        ⟨red_component vB.val, green_component vB.val, blue_component vB.val⟩) ∧
    (∀ v : uint8_t,
      red_component v.val ≤ 255 ∧ green_component v.val ≤ 255 ∧ blue_component v.val ≤ 255 ∧
      rgb_t.rgb (red_component v.val) (green_component v.val) (blue_component v.val)
        = ⟨red_component v.val, green_component v.val, blue_component v.val⟩ ∧
      (red_component v.val = 255 ↔
        (v.val.testBit 0 = true ∧ v.val.testBit 1 = true ∧ v.val.testBit 2 = true)) ∧
      (green_component v.val = 255 ↔
        (v.val.testBit 3 = true ∧ v.val.testBit 4 = true ∧ v.val.testBit 5 = true))) := by
  have hent : palette.entries = palette.pens.length := rfl
  constructor
  · obtain ⟨_, bA, _, hbA, hcA⟩ := appoooh_color_eq color_prom i (by omega)
    obtain ⟨_, bB, _, hbB, hcB⟩ := robowres_color_eq color_prom i (by omega)
    have hdefA : ∀ j, j < palette.entries → ∃ c, appoooh_color color_prom j = some c := by
      intro j hj
      obtain ⟨_, b, _, hb, hc⟩ := appoooh_color_eq color_prom j (by omega)
      exact ⟨_, hc.trans (pen_color_components _ _ b hb)⟩
    have hdefB : ∀ j, j < palette.entries → ∃ c, robowres_color color_prom j = some c := by
      intro j hj
      obtain ⟨_, b, _, hb, hc⟩ := robowres_color_eq color_prom j (by omega)
      exact ⟨_, hc.trans (pen_color_components _ _ b hb)⟩
    obtain ⟨palA, hA, _, hAi, _⟩ := palette_loop_spec _ palette palette.entries hdefA
    obtain ⟨palB, hB, _, hBi, _⟩ := palette_loop_spec _ palette palette.entries hdefB
    refine ⟨bA, bB, palA, palB, hA, hB, ?_, ?_⟩
    · rw [hAi i hi (by omega), hcA, pen_color_components _ _ bA hbA]
    · rw [hBi i hi (by omega), hcB, pen_color_components _ _ bB hbB]
  · intro v
    obtain ⟨hr, hg, hb, h1, h2⟩ := components_in_range v
    refine ⟨hr, hg, hb, ?_, h1, h2⟩
    simp only [rgb_t.rgb, Nat.mod_eq_of_lt (Nat.lt_succ_of_le hr),
      Nat.mod_eq_of_lt (Nat.lt_succ_of_le hg), Nat.mod_eq_of_lt (Nat.lt_succ_of_le hb)]

/-- C15 at a concrete input: a 34-byte PROM and a two-entry palette. -/
theorem palette_components_in_range_witness :
    (1 < (⟨[⟨0, 0, 0⟩, ⟨0, 0, 0⟩]⟩ : palette_device).entries ∧
      0x20 + (⟨[⟨0, 0, 0⟩, ⟨0, 0, 0⟩]⟩ : palette_device).entries
        ≤ (List.replicate 0x22 (0xFF : uint8_t)).length) ∧
    ∃ (vA vB : uint8_t) (palA palB : palette_device),
      appoooh_palette (List.replicate 0x22 (0xFF : uint8_t)) ⟨[⟨0, 0, 0⟩, ⟨0, 0, 0⟩]⟩
        = some palA ∧
      robowres_palette (List.replicate 0x22 (0xFF : uint8_t)) ⟨[⟨0, 0, 0⟩, ⟨0, 0, 0⟩]⟩
        = some palB ∧
      palA.pens[1]? = some
        ⟨red_component vA.val, green_component vA.val, blue_component vA.val⟩ ∧
      palB.pens[1]? = some
        ⟨red_component vB.val, green_component vB.val, blue_component vB.val⟩ :=
  ⟨⟨by decide, by decide⟩,
   (palette_components_in_range (List.replicate 0x22 (0xFF : uint8_t))
      ⟨[⟨0, 0, 0⟩, ⟨0, 0, 0⟩]⟩ 1 (by decide) (by decide)).1⟩

/-- C16 fails as stated: the bytes 0x00 and 0x8C differ in bits 2, 3 and 7,
yet `out_w` leaves the same state for both, so no reading of the state after
the write tells them apart. -/
theorem unused_bits_not_stored :
    out_w zero_state 0x00 = out_w zero_state 0x8C ∧
    (0x00 : uint8_t).val &&& 0x8C ≠ (0x8C : uint8_t).val &&& 0x8C ∧
    ¬ ∃ recover : appoooh_state → Nat,
        ∀ d : uint8_t, recover (out_w zero_state d) = d.val &&& 0x8C := by
  have heq : out_w zero_state 0x00 = out_w zero_state 0x8C := rfl
  refine ⟨heq, by decide, ?_⟩
  rintro ⟨recover, hrec⟩
  have h0 := hrec 0x00
  have h1 := hrec 0x8C
  rw [heq, h1] at h0
  exact absurd h0 (by decide)

set_option maxRecDepth 100000 in
/-- The fields `out_w` extracts from a byte only look at bits 0, 1, 4, 5
and 6 of it. -/
theorem out_w_used_bits (d : uint8_t) :
    d.val &&& 1 = (d.val &&& 0x73) &&& 1 ∧
    d.val &&& 0x02 = (d.val &&& 0x73) &&& 0x02 ∧
    d.val &&& 0x30 = (d.val &&& 0x73) &&& 0x30 ∧
    d.val &&& 0x40 = (d.val &&& 0x73) &&& 0x40 := by
  revert d
  decide

/-- C16 as amended: bits 2-3 and bit 7 of the byte written through `out_w`
are not stored: two writes, from the same prior state, of bytes that agree on
bits 0, 1, 4, 5 and 6 (mask 0x73) leave identical states, so those bits
influence none of the NMI, flip, priority or ROM-bank fields nor anything
else. -/
theorem out_w_drops_unused_bits (s : appoooh_state) (d d2 : uint8_t)
    (h : d.val &&& 0x73 = d2.val &&& 0x73) :
    out_w s d = out_w s d2 := by
  obtain ⟨a0, a1, a45, a6⟩ := out_w_used_bits d
  obtain ⟨b0, b1, b45, b6⟩ := out_w_used_bits d2
  have e0 : d.val &&& 1 = d2.val &&& 1 := by rw [a0, b0, h]
  have e1 : d.val &&& 0x02 = d2.val &&& 0x02 := by rw [a1, b1, h]
  have e45 : d.val &&& 0x30 = d2.val &&& 0x30 := by rw [a45, b45, h]
  have e6 : d.val &&& 0x40 = d2.val &&& 0x40 := by rw [a6, b6, h]
  simp only [out_w, flip_screen_set, e0, e1, e45, e6]

/-- C16 as amended, at a concrete input: the bytes 0x12 and 0x9E agree on
bits 0, 1, 4, 5 and 6 and leave the same state. -/
theorem out_w_drops_unused_bits_witness :
    (0x12 : uint8_t).val &&& 0x73 = (0x9E : uint8_t).val &&& 0x73 ∧
    out_w zero_state 0x12 = out_w zero_state 0x9E :=
  ⟨by decide, out_w_drops_unused_bits zero_state 0x12 0x9E (by decide)⟩

/-- Every blit of the sprite loop is its body run at some offset. -/
theorem mem_sprite_loop (body : Nat → blit) (n : Nat) (b : blit)
    (h : b ∈ sprite_loop body n) : ∃ offs, b = body offs := by
  induction n with
  | zero => exact absurd h (List.not_mem_nil b)
  | succ n ih =>
    rcases List.mem_cons.mp h with rfl | h
    · exact ⟨4 * n, rfl⟩
    · exact ih h

/-- The sprite code before any offset is at most 0x1FF. -/
theorem sprite_code_le (b1 b2 : uint8_t) :
    (b1.val >>> 2) + ((b2.val >>> 5) &&& 0x07) * 0x40 ≤ 0x1FF := by
  have h1 := b1.isLt
  have h2 : (b2.val >>> 5) &&& 0x07 ≤ 7 := Nat.and_le_right
  have h3 : b1.val >>> 2 = b1.val / 2 ^ 2 := Nat.shiftRight_eq_div_pow _ _
  rw [h3]
  omega

/-- C17: for every sprite table and either value of the screen-flip flag,
`robowres_draw_sprites` issues the same blits as `appoooh_draw_sprites`, in
the same order, except that every code is larger by exactly 0x200; the codes
of `appoooh_draw_sprites` lie in 0..0x1FF and those of
`robowres_draw_sprites` in 0x200..0x3FF, so the two ranges never overlap. -/
theorem robowres_sprites_are_offset_appoooh_sprites (s : appoooh_state) (gfx : Nat)
    (sprite : Nat → uint8_t) :
    robowres_draw_sprites s gfx sprite =
      (appoooh_draw_sprites s gfx sprite).map (fun b => { b with code := b.code + 0x200 }) ∧
    (∀ b, b ∈ appoooh_draw_sprites s gfx sprite → b.code ≤ 0x1FF) ∧
    (∀ b, b ∈ robowres_draw_sprites s gfx sprite → 0x200 ≤ b.code ∧ b.code ≤ 0x3FF) ∧
    (∀ a b, a ∈ appoooh_draw_sprites s gfx sprite → b ∈ robowres_draw_sprites s gfx sprite →
      a.code ≠ b.code) := by
  have hA : ∀ b, b ∈ appoooh_draw_sprites s gfx sprite → b.code ≤ 0x1FF := by
    intro b hb
    obtain ⟨offs, rfl⟩ := mem_sprite_loop _ _ b hb
    exact sprite_code_le (sprite (offs + 1)) (sprite (offs + 2))
  have hR : ∀ b, b ∈ robowres_draw_sprites s gfx sprite → 0x200 ≤ b.code ∧ b.code ≤ 0x3FF := by
    intro b hb
    obtain ⟨offs, rfl⟩ := mem_sprite_loop _ _ b hb
    have := sprite_code_le (sprite (offs + 1)) (sprite (offs + 2))
    show 0x200 ≤ 0x200 + ((sprite (offs + 1)).val >>> 2)
          + (((sprite (offs + 2)).val >>> 5) &&& 0x07) * 0x40 ∧
        0x200 + ((sprite (offs + 1)).val >>> 2)
          + (((sprite (offs + 2)).val >>> 5) &&& 0x07) * 0x40 ≤ 0x3FF
    omega
  refine ⟨?_, hA, hR, ?_⟩
  · rw [robowres_draw_sprites, appoooh_draw_sprites, sprite_loop_map]
    congr 1
    funext offs
    simp only [robowres_sprite, appoooh_sprite, blit.mk.injEq, and_true, true_and]
    omega
  · intro a b ha hb
    have h1 := hA a ha
    have h2 := (hR b hb).1
    omega

/-- Below entry 0x100 the two variants compute the same colour, whatever the
PROM holds. -/
theorem colors_agree_below_0x100 (color_prom : List uint8_t) (i : Nat) (h : i < 0x100) :
    appoooh_color color_prom i = robowres_color color_prom i := by
  unfold appoooh_color robowres_color appoooh_pen robowres_pen
  cases color_prom[0x20 + i]? with
  | none => rfl
  | some v => simp [h]

/-- The pen indices of the two variants: Variant B resolves inside
0x00..0x0F, Variant A at the same index below entry 0x100 and 0x10 higher,
inside 0x10..0x1F, from entry 0x100 on. -/
theorem pen_indices (color_prom : List uint8_t) (i : Nat) (h : 0x20 + i < color_prom.length) :
    ∃ pA pB, appoooh_pen color_prom i = some pA ∧ robowres_pen color_prom i = some pB ∧
      pB ≤ 0x0F ∧ pA < 0x20 ∧ pA < color_prom.length ∧ pB < color_prom.length ∧
      (i < 0x100 → pA = pB) ∧
      (0x100 ≤ i → pA = pB + 0x10 ∧ 0x10 ≤ pA ∧ pA ≤ 0x1F) := by
  have hB : (color_prom[0x20 + i]).val &&& 0x0f ≤ 0x0f := Nat.and_le_right
  have hA := appoooh_pen_index_lt (color_prom[0x20 + i]).val i
  have hor : ((color_prom[0x20 + i]).val &&& 0x0f) ||| 0x10
      = ((color_prom[0x20 + i]).val &&& 0x0f) + 0x10 := by
    have : ∀ x : Fin 16, x.val ||| 0x10 = x.val + 0x10 := by decide
    exact this ⟨_, Nat.lt_succ_of_le hB⟩
  refine ⟨(((color_prom[0x20 + i]).val &&& 0x0f) ||| (if i < 0x100 then 0x00 else 0x10)) % 256,
    (((color_prom[0x20 + i]).val &&& 0x0f)) % 256, ?_, ?_, ?_, ?_, ?_, ?_, ?_, ?_⟩
  · simp only [appoooh_pen, List.getElem?_eq_getElem h]
  · simp only [robowres_pen, List.getElem?_eq_getElem h]
  · omega
  · omega
  · omega
  · omega
  · intro hi
    simp [hi]
  · intro hi
    have hn : ¬ i < 0x100 := by omega
    rw [if_neg hn, hor]
    omega

/-- C18: for a PROM holding the selection bytes of all entries, and every
entry index `i < 0x100`, `appoooh_palette` and `robowres_palette` give entry
`i` the same colour, so the two palettes can differ only at entries from
0x100 on; there Variant A reads a pen byte in 0x10..0x1F and Variant B the
pen byte 0x10 lower, in 0x00..0x0F. -/
theorem variants_agree_below_0x100 (color_prom : List uint8_t) (palette : palette_device)
    (i : Nat) (hi : i < palette.entries) (hlen : 0x20 + palette.entries ≤ color_prom.length)
    (h : i < 0x100) :
    ∃ (palA palB : palette_device),
      appoooh_palette color_prom palette = some palA ∧
      robowres_palette color_prom palette = some palB ∧
      palA.pens[i]? = palB.pens[i]? ∧
      (∃ c, palA.pens[i]? = some c) ∧
      (∀ j, j < palette.entries → palA.pens[j]? ≠ palB.pens[j]? → 0x100 ≤ j) ∧
      (∀ j, j < palette.entries → 0x100 ≤ j →
        ∃ pA pB, appoooh_pen color_prom j = some pA ∧ robowres_pen color_prom j = some pB ∧
          0x10 ≤ pA ∧ pA ≤ 0x1F ∧ pB ≤ 0x0F ∧ pA = pB + 0x10) := by
  have hent : palette.entries = palette.pens.length := rfl
  have hdefA : ∀ j, j < palette.entries → ∃ c, appoooh_color color_prom j = some c := by
    intro j hj
    obtain ⟨_, b, _, hb, hc⟩ := appoooh_color_eq color_prom j (by omega)
    exact ⟨_, hc.trans (pen_color_components _ _ b hb)⟩
  have hdefB : ∀ j, j < palette.entries → ∃ c, robowres_color color_prom j = some c := by
    intro j hj
    obtain ⟨_, b, _, hb, hc⟩ := robowres_color_eq color_prom j (by omega)
    exact ⟨_, hc.trans (pen_color_components _ _ b hb)⟩
  obtain ⟨palA, hA, _, hAi, _⟩ := palette_loop_spec _ palette palette.entries hdefA
  obtain ⟨palB, hB, _, hBi, _⟩ := palette_loop_spec _ palette palette.entries hdefB
  have agree : ∀ j, j < palette.entries → j < 0x100 → palA.pens[j]? = palB.pens[j]? := by
    intro j hj hj2
    rw [hAi j hj (by omega), hBi j hj (by omega), colors_agree_below_0x100 color_prom j hj2]
  refine ⟨palA, palB, hA, hB, agree i hi h, ?_, ?_, ?_⟩
  · obtain ⟨c, hc⟩ := hdefA i hi
    exact ⟨c, by rw [hAi i hi (by omega), hc]⟩
  · intro j hj hne
    by_contra hlt
    exact hne (agree j hj (by omega))
  · intro j hj hge
    obtain ⟨pA, pB, h1, h2, h3, _, _, _, _, h8⟩ := pen_indices color_prom j (by omega)
    obtain ⟨e1, e2, e3⟩ := h8 hge
    exact ⟨pA, pB, h1, h2, e2, e3, h3, e1⟩

/-- C18 at a concrete input: a PROM of 0x121 bytes, all 0x5A, and a palette
of 0x101 entries, at entry 1. -/
theorem variants_agree_below_0x100_witness :
    ∃ (palA palB : palette_device),
      appoooh_palette (List.replicate 0x121 (0x5A : uint8_t)) ⟨List.replicate 0x101 ⟨0, 0, 0⟩⟩
        = some palA ∧
      robowres_palette (List.replicate 0x121 (0x5A : uint8_t)) ⟨List.replicate 0x101 ⟨0, 0, 0⟩⟩
        = some palB ∧
      palA.pens[1]? = palB.pens[1]? ∧
      (∃ c, palA.pens[1]? = some c) ∧
      (∀ j, j < (⟨List.replicate 0x101 ⟨0, 0, 0⟩⟩ : palette_device).entries →
        palA.pens[j]? ≠ palB.pens[j]? → 0x100 ≤ j) ∧
      (∀ j, j < (⟨List.replicate 0x101 ⟨0, 0, 0⟩⟩ : palette_device).entries → 0x100 ≤ j →
        ∃ pA pB, appoooh_pen (List.replicate 0x121 (0x5A : uint8_t)) j = some pA ∧
          robowres_pen (List.replicate 0x121 (0x5A : uint8_t)) j = some pB ∧
          0x10 ≤ pA ∧ pA ≤ 0x1F ∧ pB ≤ 0x0F ∧ pA = pB + 0x10) :=
  variants_agree_below_0x100 (List.replicate 0x121 (0x5A : uint8_t))
    ⟨List.replicate 0x101 ⟨0, 0, 0⟩⟩ 1
    (by rw [palette_device.entries, List.length_replicate]; norm_num)
    (by rw [palette_device.entries, List.length_replicate, List.length_replicate])
    (by decide)

/-- When every colour it needs is defined, the palette loop calls
`set_pen_color` for the entries 0, 1, .., n-1, in this order. -/
theorem palette_loop_writes_spec (color : Nat → Option rgb_t) (n : Nat)
    (h : ∀ i, i < n → ∃ c, color i = some c) :
    palette_loop_writes color n = some (List.range n) := by
  induction n with
  | zero => rfl
  | succ n ih =>
    obtain ⟨c, hc⟩ := h n (Nat.lt_succ_self n)
    simp only [palette_loop_writes, ih (fun i hi => h i (Nat.lt_succ_of_lt hi)), hc,
      List.range_succ]

/-- The palette the loop returns is the initial palette after the recorded
writes, applied in order: one `set_pen_color(i, color(i))` per entry. -/
theorem palette_loop_as_writes (color : Nat → Option rgb_t) (palette : palette_device) (n : Nat)
    (h : ∀ i, i < n → ∃ c, color i = some c) :
    palette_loop color palette n = some
      ((List.range n).foldl
        (fun q i => match color i with
          | some c => q.set_pen_color i c
          | none => q) palette) := by
  induction n with
  | zero => rfl
  | succ n ih =>
    obtain ⟨c, hc⟩ := h n (Nat.lt_succ_self n)
    simp only [palette_loop, ih (fun i hi => h i (Nat.lt_succ_of_lt hi)), hc,
      List.range_succ, List.foldl_append, List.foldl_cons, List.foldl_nil]

/-- C19: for an entry count N and a PROM of at least 0x20 + N bytes, neither
palette decoder reads outside the PROM: both return a palette of N entries;
for every entry i < N the selection read 0x20 + i is below 0x20 + N and
inside the PROM, and the resolved pen index is below 0x20 for Variant A and
below 0x10 for Variant B, again inside the PROM; and each loop calls
`set_pen_color` for the entries 0..N-1 in order, each exactly once, the
returned palette being the result of these writes. -/
theorem palette_reads_in_range (color_prom : List uint8_t) (palette : palette_device)
    (hlen : 0x20 + palette.entries ≤ color_prom.length) :
    (∃ palA palB,
      appoooh_palette color_prom palette = some palA ∧
      robowres_palette color_prom palette = some palB ∧
      palA.entries = palette.entries ∧ palB.entries = palette.entries) ∧
    (∀ i, i < palette.entries →
      0x20 + i < 0x20 + palette.entries ∧ 0x20 + i < color_prom.length ∧
      ∃ pA pB, appoooh_pen color_prom i = some pA ∧ robowres_pen color_prom i = some pB ∧
        pA < 0x20 ∧ pA < color_prom.length ∧ pB < 0x10 ∧ pB < color_prom.length) ∧
    palette_loop_writes (appoooh_color color_prom) palette.entries
      = some (List.range palette.entries) ∧
    palette_loop_writes (robowres_color color_prom) palette.entries
      = some (List.range palette.entries) ∧
    (∀ i, i < palette.entries → (List.range palette.entries).count i = 1) ∧
    appoooh_palette color_prom palette = some
      ((List.range palette.entries).foldl
        (fun q i => match appoooh_color color_prom i with
          | some c => q.set_pen_color i c
          | none => q) palette) ∧
    robowres_palette color_prom palette = some
      ((List.range palette.entries).foldl
        (fun q i => match robowres_color color_prom i with
          | some c => q.set_pen_color i c
          | none => q) palette) := by
  have hdefA : ∀ j, j < palette.entries → ∃ c, appoooh_color color_prom j = some c := by
    intro j hj
    obtain ⟨_, b, _, hb, hc⟩ := appoooh_color_eq color_prom j (by omega)
    exact ⟨_, hc.trans (pen_color_components _ _ b hb)⟩
  have hdefB : ∀ j, j < palette.entries → ∃ c, robowres_color color_prom j = some c := by
    intro j hj
    obtain ⟨_, b, _, hb, hc⟩ := robowres_color_eq color_prom j (by omega)
    exact ⟨_, hc.trans (pen_color_components _ _ b hb)⟩
  obtain ⟨palA, hA, hlA, _, _⟩ := palette_loop_spec _ palette palette.entries hdefA
  obtain ⟨palB, hB, hlB, _, _⟩ := palette_loop_spec _ palette palette.entries hdefB
  refine ⟨⟨palA, palB, hA, hB, hlA, hlB⟩, ?_, palette_loop_writes_spec _ _ hdefA,
    palette_loop_writes_spec _ _ hdefB, ?_, palette_loop_as_writes _ _ _ hdefA,
    palette_loop_as_writes _ _ _ hdefB⟩
  · intro i hi
    obtain ⟨pA, pB, h1, h2, h3, h4, h5, h6, _, _⟩ := pen_indices color_prom i (by omega)
    exact ⟨by omega, by omega, pA, pB, h1, h2, h4, h5, by omega, h6⟩
  · intro i hi
    exact List.count_eq_one_of_mem (List.nodup_range _) (List.mem_range.mpr hi)

/-- C19 at a concrete input: a PROM of 0x121 bytes, all 0xFF, and a palette
of 0x101 entries. -/
theorem palette_reads_in_range_witness :
    (∃ palA palB,
      appoooh_palette (List.replicate 0x121 (0xFF : uint8_t))
        ⟨List.replicate 0x101 ⟨0, 0, 0⟩⟩ = some palA ∧
      robowres_palette (List.replicate 0x121 (0xFF : uint8_t))
        ⟨List.replicate 0x101 ⟨0, 0, 0⟩⟩ = some palB ∧
      palA.entries = (⟨List.replicate 0x101 ⟨0, 0, 0⟩⟩ : palette_device).entries ∧
      palB.entries = (⟨List.replicate 0x101 ⟨0, 0, 0⟩⟩ : palette_device).entries) ∧
    palette_loop_writes (appoooh_color (List.replicate 0x121 (0xFF : uint8_t)))
        (⟨List.replicate 0x101 ⟨0, 0, 0⟩⟩ : palette_device).entries
      = some (List.range (⟨List.replicate 0x101 ⟨0, 0, 0⟩⟩ : palette_device).entries) :=
  ⟨(palette_reads_in_range (List.replicate 0x121 (0xFF : uint8_t))
      ⟨List.replicate 0x101 ⟨0, 0, 0⟩⟩
      (by rw [palette_device.entries, List.length_replicate, List.length_replicate])).1,
   (palette_reads_in_range (List.replicate 0x121 (0xFF : uint8_t))
      ⟨List.replicate 0x101 ⟨0, 0, 0⟩⟩
      (by rw [palette_device.entries, List.length_replicate, List.length_replicate])).2.2.1⟩

end Appoooh
